import Mathlib

/-!
# SyncSession and ScopedSetSessionWriteTransaction

A shallow embedding of `chrome/browser/sync/sessions/sync_session.h`.  The
embeddings of `EtwTraceProvider::ShouldLog` and of `AppCacheURLRequestJob`
follow it; all definitions come first, the theorems after them.

* A `SyncSession` object is a record of its seven data members; every member
  function is a function on that record.  A `const` member function returns a
  value only; a non-`const` one returns the new record (and its result, if any).
* Raw pointers are addresses (`Nat`), with `NULL` the address `0`.
* `ScopedSetSessionWriteTransaction` holds nothing but the pointer to its
  session, so its constructor and destructor are functions on the session
  record; the constructor can abort (its `DCHECK`), hence returns `Except`.
* Member functions that are only declared in the header (`TestAndSetSource`,
  `HasMoreToSync`, `TakeSnapshot`) and the collaborator types the header only
  includes are modelled from the specification and marked as such.
-/

namespace browser_sync
namespace sessions

/-! ## Collaborator types -/

/-- A raw C++ pointer: an address. -/
abbrev Pointer := Nat

/-- The null pointer. -/
def NULL : Pointer := 0

/-- Modelled from the spec: the enum `sync_pb::GetUpdatesCallerInfo::GET_UPDATES_SOURCE`
is declared in the sync protocol definition, which is not among the sources.  The
spec names the provenance tags "unknown/unspecified", "user-requested", "periodic
poll", "server-notified" and "continuation of a previous cycle"; the header names
the last one `SYNC_CYCLE_CONTINUATION`. -/
inductive GET_UPDATES_SOURCE
  | UNKNOWN
  | LOCAL
  | PERIODIC
  | NOTIFICATION
  | SYNC_CYCLE_CONTINUATION
  deriving DecidableEq

/-- Modelled from the spec: `ExtensionsActivityMonitor::Record` is declared in
`extensions_activity_monitor.h`, which is not among the sources.  The spec
describes it as per-extension bookmark/write counters. -/
structure Record where
  bookmark_write_count : Nat
  deriving DecidableEq

/-- Modelled from the spec: `ExtensionsActivityMonitor::Records`, "mapping from
extension identity to an activity record", as an association list. -/
abbrev Records := List (String × Record)

/-- Modelled from the spec: `StatusController` is declared in `status_controller.h`,
which is not among the sources.  The spec gives its contract only: it tracks
unresolved (pending) conflicts, server updates still to fetch (pending
downloads), unfinished commit batches, and a terminal error flag. -/
structure StatusController where
  num_pending_conflicts : Nat
  num_pending_downloads : Nat
  num_unfinished_commit_batches : Nat
  terminal_error : Bool
  deriving DecidableEq

namespace StatusController

/-- Unresolved conflicts remain. -/
def has_unresolved_conflicts (c : StatusController) : Bool :=
  decide (0 < c.num_pending_conflicts)

/-- Server updates remain to be fetched. -/
def has_unfetched_updates (c : StatusController) : Bool :=
  decide (0 < c.num_pending_downloads)

/-- Commit batches remain unfinished. -/
def has_unfinished_commits (c : StatusController) : Bool :=
  decide (0 < c.num_unfinished_commit_batches)

/-- A terminal error has been recorded. -/
def has_terminal_error (c : StatusController) : Bool :=
  c.terminal_error

end StatusController

/-- Modelled from the spec: `SyncSessionSnapshot` is declared in `session_state.h`,
which is not among the sources.  The spec describes it as "a value-typed,
immutable copy of session-visible state (status summary, source, auth-failure
flag)". -/
structure SyncSessionSnapshot where
  status : StatusController
  source : GET_UPDATES_SOURCE
  auth_failure_occurred : Bool
  deriving DecidableEq

/-! ## SyncSession -/

/-- The data members of `class SyncSession`, in declaration order
(sync_session.h, lines 108-127). -/
structure SyncSession where
  context_ : Pointer
  source_ : GET_UPDATES_SOURCE
  extensions_activity_ : Records
  write_transaction_ : Pointer
  delegate_ : Pointer
  status_controller_ : StatusController
  auth_failure_occurred_ : Bool
  deriving DecidableEq

namespace SyncSession

/-- Line 78: `SyncSessionContext* context() { return context_; }`. -/
def context (s : SyncSession) : Pointer := s.context_

/-- Line 79: `Delegate* delegate() { return delegate_; }`. -/
def delegate (s : SyncSession) : Pointer := s.delegate_

/-- Line 80: `write_transaction() { return write_transaction_; }`. -/
def write_transaction (s : SyncSession) : Pointer := s.write_transaction_

/-- Line 81: `status_controller() { return &status_controller_; }`; this is the
controller the returned pointer designates. -/
def status_controller (s : SyncSession) : StatusController := s.status_controller_

/-- A write `*session.status_controller() = update(*session.status_controller())`
made by a caller through the pointer of line 81. -/
def status_controller_write (update : StatusController → StatusController)
    (s : SyncSession) : SyncSession :=
  { s with status_controller_ := update s.status_controller_ }

/-- Lines 83-85: `extensions_activity() const { return extensions_activity_; }`. -/
def extensions_activity (s : SyncSession) : Records := s.extensions_activity_

/-- Lines 86-88: `mutable_extensions_activity() { return &extensions_activity_; }`;
a caller writes `*p = update(*p)` through the returned pointer `p`. -/
def mutable_extensions_activity (update : Records → Records)
    (s : SyncSession) : SyncSession :=
  { s with extensions_activity_ := update s.extensions_activity_ }

/-- Line 90: `auth_failure_occurred() const { return auth_failure_occurred_; }`. -/
def auth_failure_occurred (s : SyncSession) : Bool := s.auth_failure_occurred_

/-- Line 91: `set_auth_failure_occurred() { auth_failure_occurred_ = true; }`. -/
def set_auth_failure_occurred (s : SyncSession) : SyncSession :=
  { s with auth_failure_occurred_ := true }

/-- Line 92: `clear_auth_failure_occurred() { auth_failure_occurred_ = false; }`. -/
def clear_auth_failure_occurred (s : SyncSession) : SyncSession :=
  { s with auth_failure_occurred_ := false }

/-- Lines 98-100: `set_source(source) { source_ = source; }`. -/
def set_source (source : GET_UPDATES_SOURCE) (s : SyncSession) : SyncSession :=
  { s with source_ := source }

/-- Modelled from the spec: `TestAndSetSource` is only declared in the header
(line 97); its body, in sync_session.cc, is not among the sources.  Spec: "returns
the current `source` value, then unconditionally rewrites `source` to a
continuation sentinel"; header comment (lines 94-96): "The value is set to the
SYNC_CYCLE_CONTINUATION value to signal that it has been read." -/
def TestAndSetSource (s : SyncSession) : GET_UPDATES_SOURCE × SyncSession :=
  (s.source_, { s with source_ := GET_UPDATES_SOURCE.SYNC_CYCLE_CONTINUATION })

/-- Modelled from the spec: `HasMoreToSync` is only declared in the header (line
76, `const`); its body is not among the sources.  Spec: "consults the
`StatusController` for unresolved conflicts, unfetched server updates, or
unfinished commit batches and returns true iff at least one such condition holds
and no terminal error has been recorded." -/
def HasMoreToSync (s : SyncSession) : Bool :=
  (s.status_controller_.has_unresolved_conflicts
    || s.status_controller_.has_unfetched_updates
    || s.status_controller_.has_unfinished_commits)
  && !s.status_controller_.has_terminal_error

/-- Modelled from the spec: `TakeSnapshot` is only declared in the header (line
72, `const`); its body is not among the sources.  Spec: "produces an immutable
copy of current status, source, and auth-failure state." -/
def TakeSnapshot (s : SyncSession) : SyncSessionSnapshot :=
  { status := s.status_controller_
    source := s.source_
    auth_failure_occurred := s.auth_failure_occurred_ }

end SyncSession

/-! ## ScopedSetSessionWriteTransaction -/

/-- The ways a call can abort the process. -/
inductive Abort
  | DCHECK_FAILED
  | NULL_DEREFERENCE
  | CONSTRUCTION_REFUSED
  deriving DecidableEq

/-- Modelled from the spec: the macro `DCHECK` is defined in `base/logging.h`,
which is not among the sources.  Per the spec a violated check "fails fast
(aborts)"; a check that holds does nothing. -/
def DCHECK (condition : Bool) : Except Abort Unit :=
  if condition then Except.ok () else Except.error Abort.DCHECK_FAILED

namespace ScopedSetSessionWriteTransaction

/-- Lines 137-142: the constructor,
`DCHECK(!session_->write_transaction_); session_->write_transaction_ = trans;`.
`!p` on a pointer is true exactly when `p` is null. -/
def construct (session : SyncSession) (trans : Pointer) : Except Abort SyncSession :=
  match DCHECK (decide (session.write_transaction_ = NULL)) with
  | Except.error e => Except.error e
  | Except.ok () => Except.ok { session with write_transaction_ := trans }

/-- Line 143: the destructor, `session_->write_transaction_ = NULL;`. -/
def destruct (session : SyncSession) : SyncSession :=
  { session with write_transaction_ := NULL }

end ScopedSetSessionWriteTransaction

/-! ## Sequences of session operations -/

/-- One operation on a session: a call of a public member of `SyncSession`
(with the write a caller makes through a returned pointer, where the member
returns one), or the construction or destruction of a
`ScopedSetSessionWriteTransaction` on it. -/
inductive Op
  | TakeSnapshot
  | HasMoreToSync
  | context
  | delegate
  | write_transaction
  | status_controller (update : StatusController → StatusController)
  | extensions_activity
  | mutable_extensions_activity (update : Records → Records)
  | auth_failure_occurred
  | set_auth_failure_occurred
  | clear_auth_failure_occurred
  | TestAndSetSource
  | set_source (source : GET_UPDATES_SOURCE)
  | guard_construct (trans : Pointer)
  | guard_destruct

namespace Op

/-- The session after an operation, or the abort it ends in.  The `const`
members and the plain getters return a value and leave the object as it is. -/
def apply (op : Op) (s : SyncSession) : Except Abort SyncSession :=
  match op with
  | .TakeSnapshot => Except.ok s
  | .HasMoreToSync => Except.ok s
  | .context => Except.ok s
  | .delegate => Except.ok s
  | .write_transaction => Except.ok s
  | .status_controller update => Except.ok (s.status_controller_write update)
  | .extensions_activity => Except.ok s
  | .mutable_extensions_activity update => Except.ok (s.mutable_extensions_activity update)
  | .auth_failure_occurred => Except.ok s
  | .set_auth_failure_occurred => Except.ok s.set_auth_failure_occurred
  | .clear_auth_failure_occurred => Except.ok s.clear_auth_failure_occurred
  | .TestAndSetSource => Except.ok s.TestAndSetSource.2
  | .set_source source => Except.ok (s.set_source source)
  | .guard_construct t => ScopedSetSessionWriteTransaction.construct s t
  | .guard_destruct => Except.ok (ScopedSetSessionWriteTransaction.destruct s)

/-- Is the operation a call of `set_source`? -/
def isSetSource : Op → Bool
  | .set_source _ => true
  | _ => false

/-- Is the operation a call of `clear_auth_failure_occurred`? -/
def isClearAuthFailure : Op → Bool
  | .clear_auth_failure_occurred => true
  | _ => false

/-- Is the operation a write through `mutable_extensions_activity()`? -/
def isExtensionsWrite : Op → Bool
  | .mutable_extensions_activity _ => true
  | _ => false

/-- Is the operation the construction of a guard? -/
def isGuardConstruct : Op → Bool
  | .guard_construct _ => true
  | _ => false

end Op

/-- Run a sequence of operations, left to right, stopping at the first abort. -/
def run : List Op → SyncSession → Except Abort SyncSession
  | [], s => Except.ok s
  | op :: ops, s =>
    match op.apply s with
    | Except.error e => Except.error e
    | Except.ok s1 => run ops s1

/-- The results of `n` consecutive calls of `TestAndSetSource`, in call order,
and the session after the last one. -/
def callTestAndSetSource : Nat → SyncSession → List GET_UPDATES_SOURCE × SyncSession
  | 0, s => ([], s)
  | n + 1, s =>
    let r := s.TestAndSetSource
    let rest := callTestAndSetSource n r.2
    (r.1 :: rest.1, rest.2)

/-- A session used to instantiate the theorems: no transaction attached, one
extension with recorded activity, one pending conflict. -/
def sampleSession : SyncSession :=
  { context_ := 4096
    source_ := GET_UPDATES_SOURCE.LOCAL
    extensions_activity_ := [("ext", { bookmark_write_count := 2 })]
    write_transaction_ := NULL
    delegate_ := 8192
    status_controller_ :=
      { num_pending_conflicts := 1
        num_pending_downloads := 0
        num_unfinished_commit_batches := 0
        terminal_error := false }
    auth_failure_occurred_ := true }

/-- The sample session with handle `t` attached. -/
def sampleSessionWith (t : Pointer) : SyncSession :=
  { sampleSession with write_transaction_ := t }

/-! ## Construction of a session -/

namespace StatusController

/-- Modelled from the spec: the constructor of `StatusController` is not among
the sources.  A "fresh" controller has nothing pending and no terminal error. -/
def fresh : StatusController :=
  { num_pending_conflicts := 0
    num_pending_downloads := 0
    num_unfinished_commit_batches := 0
    terminal_error := false }

end StatusController

/-- Modelled from the spec: the constructor `SyncSession(context, delegate)` is
only declared in the header (line 69); its body is not among the sources.  Spec:
"fails (refuses construction) if either argument is absent.  Initializes `source`
to an unknown/unspecified sentinel, `write_transaction` to empty,
`auth_failure_occurred` to false, and creates a fresh `StatusController`."  The
records member is default-constructed, hence empty. -/
def SyncSession.construct (context delegate : Pointer) : Except Abort SyncSession :=
  if context = NULL ∨ delegate = NULL then
    Except.error Abort.CONSTRUCTION_REFUSED
  else
    Except.ok
      { context_ := context
        source_ := GET_UPDATES_SOURCE.UNKNOWN
        extensions_activity_ := []
        write_transaction_ := NULL
        delegate_ := delegate
        status_controller_ := StatusController.fresh
        auth_failure_occurred_ := false }

/-! ## Nested guards -/

/-- A session together with its live guards, most recently constructed first.
A guard object stores only the pointer to its session; each list entry is the
handle the guard was constructed with, kept to say which guards are live. -/
structure GuardedSession where
  session : SyncSession
  live : List Pointer

/-- Construction of a guard with a handle, or destruction of the most recently
constructed live guard (scoped objects are destroyed in reverse order of
construction). -/
inductive GuardEvent
  | construct (trans : Pointer)
  | destruct

/-- The state after a guard event; `none` if the construction aborts, or if
there is no live guard to destroy. -/
def GuardEvent.apply : GuardEvent → GuardedSession → Option GuardedSession
  | .construct t, g =>
    match ScopedSetSessionWriteTransaction.construct g.session t with
    | Except.error _ => none
    | Except.ok s1 => some { session := s1, live := t :: g.live }
  | .destruct, g =>
    match g.live with
    | [] => none
    | _ :: rest =>
      some { session := ScopedSetSessionWriteTransaction.destruct g.session, live := rest }

/-- Run a sequence of guard events, left to right; `none` as soon as one fails. -/
def runGuards : List GuardEvent → GuardedSession → Option GuardedSession
  | [], g => some g
  | e :: es, g =>
    match e.apply g with
    | none => none
    | some g1 => runGuards es g1

/-- The handles of the live guards that are not null. -/
def GuardedSession.attached (g : GuardedSession) : List Pointer :=
  g.live.filter (fun t => decide (t ≠ NULL))

end sessions
end browser_sync

/-! # EtwTraceProvider

A shallow embedding of `EtwTraceProvider::ShouldLog` from
`base/event_trace_provider_win.h`.  The Windows integer types are unsigned
machine integers (`TRACEHANDLE` 64 bits, `EtwEventFlags` = `ULONG` 32 bits,
`EtwEventLevel` = `UCHAR` 8 bits); `ShouldLog` only compares them and takes a
bitwise and, so they are embedded as natural numbers. -/

/-- The data members of `class EtwTraceProvider` (lines 142-146). -/
structure EtwTraceProvider where
  provider_name_ : Nat
  registration_handle_ : Nat
  session_handle_ : Nat
  enable_flags_ : Nat
  enable_level_ : Nat
  deriving DecidableEq

namespace EtwTraceProvider

/-- Line 105: `session_handle() const { return session_handle_; }`. -/
def session_handle (p : EtwTraceProvider) : Nat := p.session_handle_

/-- Line 106: `enable_flags() const { return enable_flags_; }`. -/
def enable_flags (p : EtwTraceProvider) : Nat := p.enable_flags_

/-- Line 107: `enable_level() const { return enable_level_; }`. -/
def enable_level (p : EtwTraceProvider) : Nat := p.enable_level_

/-- Lines 112-115: `return NULL != session_handle_ && level >= enable_level_ &&
(0 != (flags & enable_flags_));`. -/
def ShouldLog (p : EtwTraceProvider) (level flags : Nat) : Bool :=
  decide (0 ≠ p.session_handle_) && decide (level ≥ p.enable_level_)
    && decide (0 ≠ (flags &&& p.enable_flags_))

/-- A provider used to instantiate the theorems: enabled in session 17 at level
4 with flag bits 1 and 3. -/
def sampleProvider : EtwTraceProvider :=
  { provider_name_ := 1
    registration_handle_ := 9
    session_handle_ := 17
    enable_flags_ := 10
    enable_level_ := 4 }

end EtwTraceProvider

/-! # AppCacheURLRequestJob

A shallow embedding of `webkit/appcache/appcache_url_request_job.cc`.  A job is
the record of its data members; a member function returns the job after the call
and the calls it made on its collaborators (message loop, storage, reader, base
class), in order, or the abort it ends in.  The class declaration
(`appcache_url_request_job.h`) and the collaborator classes are not among the
sources: the members are those the `.cc` file assigns and reads, and the small
inline accessors it calls are modelled and marked as such. -/

namespace net

/-- Modelled from the spec: the enum `net::LoadState` is declared in
`net/base/load_states.h`, which is not among the sources; these are the three
enumerators `GetLoadState` returns. -/
inductive LoadState
  | LOAD_STATE_IDLE
  | LOAD_STATE_WAITING_FOR_CACHE
  | LOAD_STATE_READING_RESPONSE
  deriving DecidableEq

end net

namespace appcache

open browser_sync.sessions (Pointer NULL Abort DCHECK)

/-- Modelled from the spec: the macro `NOTREACHED` is defined in
`base/logging.h`, which is not among the sources; it marks code that must not be
reached, a check that always fails. -/
def NOTREACHED : Except Abort Unit := DCHECK false

/-- Modelled from the spec: the enum of delivery types is declared in the class
declaration, which is not among the sources; these are the four enumerators the
`.cc` file names (lines 16, 32, 41, 48). -/
inductive DeliveryType
  | AWAITING_DELIVERY_ORDERS
  | APPCACHED_DELIVERY
  | NETWORK_DELIVERY
  | ERROR_DELIVERY
  deriving DecidableEq

/-- Modelled from the spec: `AppCacheEntry` is declared in `appcache_entry.h`,
which is not among the sources.  An entry is the record of what the two
accessors the job calls on it return, `has_response_id()` and `response_id()`. -/
structure AppCacheEntry where
  has_response_id : Bool
  response_id : Int
  deriving DecidableEq

/-- Modelled from the spec: `AppCacheResponseReader` is declared in
`appcache_response.h`, which is not among the sources.  A reader is the record
of what `IsReadPending()` returns. -/
structure AppCacheResponseReader where
  is_read_pending : Bool
  deriving DecidableEq

/-- Modelled from the spec: `AppCacheResponseReader::ReadData` is not among the
sources; a read is pending from `ReadData` until its completion callback. -/
def AppCacheResponseReader.ReadData (_r : AppCacheResponseReader) : AppCacheResponseReader :=
  { is_read_pending := true }

/-- Modelled from the spec: the enum `URLRequestStatus::Status` is declared in
`url_request_status.h`, which is not among the sources; `IO_PENDING` and `FAILED`
are named in the `.cc` file, `SUCCESS` is the status of `URLRequestStatus()`. -/
inductive URLRequestStatus.Status
  | SUCCESS
  | IO_PENDING
  | FAILED
  deriving DecidableEq

/-- Modelled from the spec: `URLRequestStatus`, a status and an error code. -/
structure URLRequestStatus where
  status : URLRequestStatus.Status
  os_error : Int
  deriving DecidableEq

/-- Modelled from the spec: `URLRequestStatus()`, the default-constructed status. -/
def URLRequestStatus.empty : URLRequestStatus :=
  { status := URLRequestStatus.Status.SUCCESS, os_error := 0 }

/-- A call the job makes on a collaborator or on its base class. -/
inductive Effect
  | PostTask_BeginDelivery
  | NotifyRestartRequired
  | NotifyStartError (status : URLRequestStatus)
  | NotifyHeadersComplete
  | NotifyDone (status : URLRequestStatus)
  | SetStatus (status : URLRequestStatus)
  | NotifyReadComplete (result : Int)
  | LoadResponseInfo (storage : Pointer) (manifest_url : String) (response_id : Int)
  | CreateResponseReader (storage : Pointer) (manifest_url : String) (response_id : Int)
  | ReadData (buf : Pointer) (buf_size : Int)
  | CancelDelegateCallbacks (storage : Pointer)
  | URLRequestJob_Kill
  deriving DecidableEq

/-- The data members of `AppCacheURLRequestJob` that the `.cc` file assigns or
reads.  `info_` is the pointer a `scoped_refptr` holds, `reader_` the reader a
`scoped_ptr` owns, if any. -/
structure AppCacheURLRequestJob where
  storage_ : Pointer
  has_been_started_ : Bool
  has_been_killed_ : Bool
  delivery_type_ : DeliveryType
  manifest_url_ : String
  cache_id_ : Int
  entry_ : AppCacheEntry
  info_ : Pointer
  reader_ : Option AppCacheResponseReader
  deriving DecidableEq

namespace AppCacheURLRequestJob

/-- Modelled from the spec: the accessor `has_been_started()` is defined in the
class declaration, not among the sources; it reads `has_been_started_`. -/
def has_been_started (j : AppCacheURLRequestJob) : Bool := j.has_been_started_

/-- Modelled from the spec: the accessor `has_been_killed()` is defined in the
class declaration, not among the sources; it reads `has_been_killed_`. -/
def has_been_killed (j : AppCacheURLRequestJob) : Bool := j.has_been_killed_

/-- Modelled from the spec: the accessor `has_delivery_orders()` is defined in the
class declaration, not among the sources; it means
`delivery_type_ != AWAITING_DELIVERY_ORDERS`. -/
def has_delivery_orders (j : AppCacheURLRequestJob) : Bool :=
  decide (j.delivery_type_ ≠ DeliveryType.AWAITING_DELIVERY_ORDERS)

/-- Modelled from the spec: the accessor `is_delivering_appcache_response()` is
defined in the class declaration, not among the sources; it means
`delivery_type_ == APPCACHED_DELIVERY`. -/
def is_delivering_appcache_response (j : AppCacheURLRequestJob) : Bool :=
  decide (j.delivery_type_ = DeliveryType.APPCACHED_DELIVERY)

/-- Lines 12-21: the constructor.  `kNoCacheId` is a constant declared outside
the sources and is a parameter; `manifest_url_`, `entry_`, `info_` and `reader_`
are default-constructed (empty URL, entry without response id, null, no reader). -/
def construct (kNoCacheId : Int) (storage : Pointer) : Except Abort AppCacheURLRequestJob :=
  let j : AppCacheURLRequestJob :=
    { storage_ := storage
      has_been_started_ := false
      has_been_killed_ := false
      delivery_type_ := DeliveryType.AWAITING_DELIVERY_ORDERS
      manifest_url_ := ""
      cache_id_ := kNoCacheId
      entry_ := { has_response_id := false, response_id := 0 }
      info_ := NULL
      reader_ := none }
  match DCHECK (decide (j.storage_ ≠ NULL)) with
  | Except.error e => Except.error e
  | Except.ok () => Except.ok j

/-- Lines 53-60: `MaybeBeginDelivery`; it assigns no member and posts the
`BeginDelivery` task if the job has been started and has delivery orders. -/
def MaybeBeginDelivery (j : AppCacheURLRequestJob) : List Effect :=
  if j.has_been_started && j.has_delivery_orders then [Effect.PostTask_BeginDelivery] else []

/-- Lines 28-37: `DeliverAppCachedResponse`. -/
def DeliverAppCachedResponse (manifest_url : String) (cache_id : Int) (entry : AppCacheEntry)
    (j : AppCacheURLRequestJob) : Except Abort (AppCacheURLRequestJob × List Effect) := do
  DCHECK (!j.has_delivery_orders)
  DCHECK entry.has_response_id
  let j1 := { j with
    delivery_type_ := DeliveryType.APPCACHED_DELIVERY
    manifest_url_ := manifest_url
    cache_id_ := cache_id
    entry_ := entry }
  pure (j1, j1.MaybeBeginDelivery)

/-- Lines 39-44: `DeliverNetworkResponse`. -/
def DeliverNetworkResponse (j : AppCacheURLRequestJob) :
    Except Abort (AppCacheURLRequestJob × List Effect) := do
  DCHECK (!j.has_delivery_orders)
  let j1 := { j with delivery_type_ := DeliveryType.NETWORK_DELIVERY, storage_ := NULL }
  pure (j1, j1.MaybeBeginDelivery)

/-- Lines 46-51: `DeliverErrorResponse`. -/
def DeliverErrorResponse (j : AppCacheURLRequestJob) :
    Except Abort (AppCacheURLRequestJob × List Effect) := do
  DCHECK (!j.has_delivery_orders)
  let j1 := { j with delivery_type_ := DeliveryType.ERROR_DELIVERY, storage_ := NULL }
  pure (j1, j1.MaybeBeginDelivery)

/-- Lines 122-126: `Start`. -/
def Start (j : AppCacheURLRequestJob) : Except Abort (AppCacheURLRequestJob × List Effect) := do
  DCHECK (!j.has_been_started)
  let j1 := { j with has_been_started_ := true }
  pure (j1, j1.MaybeBeginDelivery)

/-- Lines 62-90: `BeginDelivery`.  `ERR_FAILED` is the constant `net::ERR_FAILED`,
declared outside the sources, and is a parameter.  `storage_->LoadResponseInfo`
dereferences `storage_`. -/
def BeginDelivery (ERR_FAILED : Int) (j : AppCacheURLRequestJob) :
    Except Abort (AppCacheURLRequestJob × List Effect) := do
  DCHECK (j.has_delivery_orders && j.has_been_started)
  if j.has_been_killed then
    pure (j, [])
  else
    match j.delivery_type_ with
    | DeliveryType.NETWORK_DELIVERY => pure (j, [Effect.NotifyRestartRequired])
    | DeliveryType.ERROR_DELIVERY =>
      pure (j, [Effect.NotifyStartError
        { status := URLRequestStatus.Status.FAILED, os_error := ERR_FAILED }])
    | DeliveryType.APPCACHED_DELIVERY =>
      if j.storage_ = NULL then
        Except.error Abort.NULL_DEREFERENCE
      else
        pure (j, [Effect.LoadResponseInfo j.storage_ j.manifest_url_ j.entry_.response_id])
    | DeliveryType.AWAITING_DELIVERY_ORDERS => do
      NOTREACHED
      pure (j, [])

/-- Lines 128-138: `Kill`. -/
def Kill (j : AppCacheURLRequestJob) : AppCacheURLRequestJob × List Effect :=
  if !j.has_been_killed_ then
    let j1 := { j with has_been_killed_ := true, reader_ := none }
    if j1.storage_ ≠ NULL then
      ({ j1 with storage_ := NULL },
        [Effect.CancelDelegateCallbacks j1.storage_, Effect.URLRequestJob_Kill])
    else
      (j1, [Effect.URLRequestJob_Kill])
  else
    (j, [])

/-- Lines 140-152: `GetLoadState`. -/
def GetLoadState (j : AppCacheURLRequestJob) : net.LoadState :=
  if !j.has_been_started then
    net.LoadState.LOAD_STATE_IDLE
  else if !j.has_delivery_orders then
    net.LoadState.LOAD_STATE_WAITING_FOR_CACHE
  else if j.delivery_type_ ≠ DeliveryType.APPCACHED_DELIVERY then
    net.LoadState.LOAD_STATE_IDLE
  else if j.info_ = NULL then
    net.LoadState.LOAD_STATE_WAITING_FOR_CACHE
  else
    match j.reader_ with
    | some r => if r.is_read_pending then net.LoadState.LOAD_STATE_READING_RESPONSE
                else net.LoadState.LOAD_STATE_IDLE
    | none => net.LoadState.LOAD_STATE_IDLE

/-- Lines 92-106: `OnResponseInfoLoaded`.  `created` is what
`storage_->CreateResponseReader` returns, a reader or null; the call dereferences
`storage_`.  `ERR_FAILED` as in `BeginDelivery`. -/
def OnResponseInfoLoaded (ERR_FAILED : Int) (response_info : Pointer) (_response_id : Int)
    (created : Option AppCacheResponseReader) (j : AppCacheURLRequestJob) :
    Except Abort (AppCacheURLRequestJob × List Effect) := do
  DCHECK j.is_delivering_appcache_response
  if response_info ≠ NULL then
    if j.storage_ = NULL then
      Except.error Abort.NULL_DEREFERENCE
    else
      pure ({ j with info_ := response_info, reader_ := created, storage_ := NULL },
        [Effect.CreateResponseReader j.storage_ j.manifest_url_ j.entry_.response_id,
          Effect.NotifyHeadersComplete])
  else
    pure ({ j with storage_ := NULL },
      [Effect.NotifyStartError
        { status := URLRequestStatus.Status.FAILED, os_error := ERR_FAILED }])

/-- Lines 108-118: `OnReadComplete`; it assigns no member. -/
def OnReadComplete (result : Int) (j : AppCacheURLRequestJob) :
    Except Abort (AppCacheURLRequestJob × List Effect) := do
  DCHECK j.is_delivering_appcache_response
  if result = 0 then
    pure (j, [Effect.NotifyDone URLRequestStatus.empty, Effect.NotifyReadComplete result])
  else if result < 0 then
    pure (j, [Effect.NotifyDone { status := URLRequestStatus.Status.FAILED, os_error := result },
      Effect.NotifyReadComplete result])
  else
    pure (j, [Effect.SetStatus URLRequestStatus.empty, Effect.NotifyReadComplete result])

/-- Lines 185-194: `ReadRawData`; the Boolean is the value returned, `false`.
`reader_->IsReadPending()` dereferences `reader_`. -/
def ReadRawData (buf : Pointer) (buf_size : Int) (bytes_read : Pointer)
    (j : AppCacheURLRequestJob) :
    Except Abort (Bool × AppCacheURLRequestJob × List Effect) := do
  DCHECK j.is_delivering_appcache_response
  DCHECK (decide (buf_size ≠ 0))
  DCHECK (decide (bytes_read ≠ NULL))
  match j.reader_ with
  | none => Except.error Abort.NULL_DEREFERENCE
  | some r => do
    DCHECK (!r.is_read_pending)
    pure (false, { j with reader_ := some r.ReadData },
      [Effect.ReadData buf buf_size,
        Effect.SetStatus { status := URLRequestStatus.Status.IO_PENDING, os_error := 0 }])

end AppCacheURLRequestJob

/-- The three delivery orders a job can be given. -/
inductive Delivery
  | AppCachedResponse (manifest_url : String) (cache_id : Int) (entry : AppCacheEntry)
  | NetworkResponse
  | ErrorResponse
  deriving DecidableEq

/-- The `Deliver...Response` call of a delivery order. -/
def Delivery.deliver (d : Delivery) (j : AppCacheURLRequestJob) :
    Except Abort (AppCacheURLRequestJob × List Effect) :=
  match d with
  | .AppCachedResponse manifest_url cache_id entry =>
    j.DeliverAppCachedResponse manifest_url cache_id entry
  | .NetworkResponse => j.DeliverNetworkResponse
  | .ErrorResponse => j.DeliverErrorResponse

/-- The argument checks of a delivery order hold: an app-cached response comes
with an entry that has a response id (line 31). -/
def Delivery.wellFormed : Delivery → Bool
  | .AppCachedResponse _ _ entry => entry.has_response_id
  | .NetworkResponse => true
  | .ErrorResponse => true

/-- One call on a job: a member function of the `.cc` file with its arguments. -/
inductive Call
  | Deliver (d : Delivery)
  | Start
  | BeginDelivery
  | OnResponseInfoLoaded (response_info : Pointer) (response_id : Int)
      (created : Option AppCacheResponseReader)
  | OnReadComplete (result : Int)
  | ReadRawData (buf : Pointer) (buf_size : Int) (bytes_read : Pointer)
  | Kill
  | GetLoadState

/-- The job after a call and the collaborator calls it made, or the abort it
ends in.  When the reader runs the read callback its read is no longer pending. -/
def Call.apply (ERR_FAILED : Int) (c : Call) (j : AppCacheURLRequestJob) :
    Except Abort (AppCacheURLRequestJob × List Effect) :=
  match c with
  | .Deliver d => d.deliver j
  | .Start => j.Start
  | .BeginDelivery => j.BeginDelivery ERR_FAILED
  | .OnResponseInfoLoaded response_info response_id created =>
    j.OnResponseInfoLoaded ERR_FAILED response_info response_id created
  | .OnReadComplete result =>
    AppCacheURLRequestJob.OnReadComplete result
      { j with reader_ := j.reader_.map (fun _ => { is_read_pending := false }) }
  | .ReadRawData buf buf_size bytes_read =>
    (match j.ReadRawData buf buf_size bytes_read with
      | Except.error e => Except.error e
      | Except.ok r => Except.ok r.2)
  | .Kill => Except.ok j.Kill
  | .GetLoadState => Except.ok (j, [])

/-- Run a sequence of calls, left to right, stopping at the first abort, and
collect the collaborator calls in order. -/
def runCalls (ERR_FAILED : Int) : List Call → AppCacheURLRequestJob →
    Except Abort (AppCacheURLRequestJob × List Effect)
  | [], j => Except.ok (j, [])
  | c :: cs, j =>
    match c.apply ERR_FAILED j with
    | Except.error e => Except.error e
    | Except.ok r1 =>
      match runCalls ERR_FAILED cs r1.1 with
      | Except.error e => Except.error e
      | Except.ok r2 => Except.ok (r2.1, r1.2 ++ r2.2)

/-- The decision table of the load state, on the five conditions it reads: the
job has been started; it has delivery orders; the delivery type is
`APPCACHED_DELIVERY`; the response info has been loaded; a reader exists and has
a read pending. -/
def loadStateTable (started orders appcached infoLoaded readPending : Bool) : net.LoadState :=
  match started, orders, appcached, infoLoaded, readPending with
  | false, _, _, _, _ => net.LoadState.LOAD_STATE_IDLE
  | true, false, _, _, _ => net.LoadState.LOAD_STATE_WAITING_FOR_CACHE
  | true, true, false, _, _ => net.LoadState.LOAD_STATE_IDLE
  | true, true, true, false, _ => net.LoadState.LOAD_STATE_WAITING_FOR_CACHE
  | true, true, true, true, true => net.LoadState.LOAD_STATE_READING_RESPONSE
  | true, true, true, true, false => net.LoadState.LOAD_STATE_IDLE

/-- A reader exists and has a read pending. -/
def AppCacheURLRequestJob.readPending (j : AppCacheURLRequestJob) : Bool :=
  match j.reader_ with
  | some r => r.is_read_pending
  | none => false

/-- The number of `CancelDelegateCallbacks` calls among collaborator calls. -/
def countCancel : List Effect → Nat
  | [] => 0
  | Effect.CancelDelegateCallbacks _ :: rest => countCancel rest + 1
  | _ :: rest => countCancel rest

/-- A job used to instantiate the theorems: as constructed on storage 64, with
`kNoCacheId` taken as 0. -/
def sampleJob : AppCacheURLRequestJob :=
  { storage_ := 64
    has_been_started_ := false
    has_been_killed_ := false
    delivery_type_ := DeliveryType.AWAITING_DELIVERY_ORDERS
    manifest_url_ := ""
    cache_id_ := 0
    entry_ := { has_response_id := false, response_id := 0 }
    info_ := NULL
    reader_ := none }

end appcache

namespace browser_sync
namespace sessions

open GET_UPDATES_SOURCE ScopedSetSessionWriteTransaction

/-! ## Basic facts used by several theorems -/

/-- `TestAndSetSource` on a session whose source is already the continuation
sentinel returns the sentinel and leaves the session as it is. -/
theorem TestAndSetSource_of_continuation (s : SyncSession)
    (h : s.source_ = SYNC_CYCLE_CONTINUATION) :
    s.TestAndSetSource = (SYNC_CYCLE_CONTINUATION, s) := by
  cases s
  simp only [SyncSession.TestAndSetSource] at *
  subst h
  rfl

/-- Repeated calls on an already consumed session all return the sentinel. -/
theorem callTestAndSetSource_of_continuation (n : Nat) (s : SyncSession)
    (h : s.source_ = SYNC_CYCLE_CONTINUATION) :
    callTestAndSetSource n s = (List.replicate n SYNC_CYCLE_CONTINUATION, s) := by
  induction n with
  | zero => rfl
  | succ n ih =>
    simp only [callTestAndSetSource, TestAndSetSource_of_continuation s h, ih,
      List.replicate_succ]

/-- Unfolding of a run that starts with one operation. -/
theorem run_cons (op : Op) (ops : List Op) (s : SyncSession) :
    run (op :: ops) s =
      match op.apply s with
      | Except.error e => Except.error e
      | Except.ok s1 => run ops s1 := rfl

/-- The constructor of the guard on a transaction-free session. -/
theorem construct_of_null (s : SyncSession) (t : Pointer)
    (h : s.write_transaction_ = NULL) :
    ScopedSetSessionWriteTransaction.construct s t
      = Except.ok { s with write_transaction_ := t } := by
  simp [ScopedSetSessionWriteTransaction.construct, DCHECK, h]

/-- The constructor of the guard on a session that holds a transaction. -/
theorem construct_of_attached (s : SyncSession) (t : Pointer)
    (h : s.write_transaction_ ≠ NULL) :
    ScopedSetSessionWriteTransaction.construct s t
      = Except.error Abort.DCHECK_FAILED := by
  simp [ScopedSetSessionWriteTransaction.construct, DCHECK, h]

/-- A successful constructor call changes the write transaction only. -/
theorem construct_ok_eq (s s1 : SyncSession) (t : Pointer)
    (h : ScopedSetSessionWriteTransaction.construct s t = Except.ok s1) :
    s1 = { s with write_transaction_ := t } := by
  by_cases hn : s.write_transaction_ = NULL
  · rw [construct_of_null s t hn] at h
    exact (Except.ok.inj h).symm
  · rw [construct_of_attached s t hn] at h
    cases h

/-- An operation either yields a new session or is a guard construction on a
session that holds a transaction, which aborts. -/
theorem apply_ok_or_abort (op : Op) (s : SyncSession) :
    (∃ s1, op.apply s = Except.ok s1)
    ∨ (op.isGuardConstruct = true ∧ s.write_transaction ≠ NULL
        ∧ op.apply s = Except.error Abort.DCHECK_FAILED) := by
  cases op
  case guard_construct t =>
    by_cases hn : s.write_transaction_ = NULL
    · exact Or.inl ⟨_, construct_of_null s t hn⟩
    · exact Or.inr ⟨rfl, hn, construct_of_attached s t hn⟩
  all_goals exact Or.inl ⟨_, rfl⟩

/-- Only `clear_auth_failure_occurred` can turn the auth-failure flag off. -/
theorem apply_auth_failure (op : Op) (s s1 : SyncSession)
    (hop : op.isClearAuthFailure = false) (h : op.apply s = Except.ok s1)
    (ha : s.auth_failure_occurred_ = true) : s1.auth_failure_occurred_ = true := by
  cases op
  case guard_construct t =>
    rw [construct_ok_eq s s1 t h]
    exact ha
  case clear_auth_failure_occurred => cases hop
  all_goals
    cases Except.ok.inj h
    first
      | exact ha
      | rfl

/-- Only a write through `mutable_extensions_activity()` changes the records. -/
theorem apply_extensions_activity (op : Op) (s s1 : SyncSession)
    (hop : op.isExtensionsWrite = false) (h : op.apply s = Except.ok s1) :
    s1.extensions_activity_ = s.extensions_activity_ := by
  cases op
  case guard_construct t => rw [construct_ok_eq s s1 t h]
  case mutable_extensions_activity update => cases hop
  all_goals
    cases Except.ok.inj h
    rfl

/-- Only `set_source` can move the source away from the continuation sentinel. -/
theorem apply_source (op : Op) (s s1 : SyncSession)
    (hop : op.isSetSource = false) (h : op.apply s = Except.ok s1)
    (hs : s.source_ = SYNC_CYCLE_CONTINUATION) : s1.source_ = SYNC_CYCLE_CONTINUATION := by
  cases op
  case guard_construct t =>
    rw [construct_ok_eq s s1 t h]
    exact hs
  case set_source S => cases hop
  all_goals
    cases Except.ok.inj h
    first
      | exact hs
      | rfl

/-- A property of sessions kept by each operation of a sequence is kept by a
run of the sequence. -/
theorem run_preserves (P : SyncSession → Prop) (good : Op → Prop)
    (hstep : ∀ op s s1, good op → op.apply s = Except.ok s1 → P s → P s1)
    (ops : List Op) (s s1 : SyncSession) (hops : ∀ o ∈ ops, good o)
    (h : run ops s = Except.ok s1) (hP : P s) : P s1 := by
  induction ops generalizing s with
  | nil =>
    cases Except.ok.inj h
    exact hP
  | cons op ops ih =>
    rw [run_cons] at h
    cases hop : op.apply s with
    | error e =>
      rw [hop] at h
      cases h
    | ok s2 =>
      rw [hop] at h
      exact ih s2 (fun o ho => hops o (List.mem_cons_of_mem _ ho)) h
        (hstep op s s2 (hops op (List.mem_cons_self _ _)) hop hP)

/-- A sequence without guard constructions runs to the end. -/
theorem run_ok_of_no_guard_construct (ops : List Op) (s : SyncSession)
    (hops : ∀ o ∈ ops, o.isGuardConstruct = false) : ∃ s1, run ops s = Except.ok s1 := by
  induction ops generalizing s with
  | nil => exact ⟨s, rfl⟩
  | cons op ops ih =>
    rw [run_cons]
    rcases apply_ok_or_abort op s with ⟨s2, h2⟩ | ⟨hg, _, _⟩
    · rw [h2]
      exact ih s2 (fun o ho => hops o (List.mem_cons_of_mem _ ho))
    · rw [hops op (List.mem_cons_self _ _)] at hg
      cases hg

/-- A successful constructor call found the session transaction-free. -/
theorem construct_ok_null (s s1 : SyncSession) (t : Pointer)
    (h : ScopedSetSessionWriteTransaction.construct s t = Except.ok s1) :
    s.write_transaction_ = NULL := by
  by_cases hn : s.write_transaction_ = NULL
  · exact hn
  · rw [construct_of_attached s t hn] at h
    cases h

/-- Unfolding of a run of guard events that starts with one event. -/
theorem runGuards_cons (e : GuardEvent) (es : List GuardEvent) (g : GuardedSession) :
    runGuards (e :: es) g =
      match e.apply g with
      | none => none
      | some g1 => runGuards es g1 := rfl

/-- One guard event keeps this shape: the session holds the handle of the most
recent live guard (null if there is none), and all older live guards hold null. -/
theorem GuardEvent.apply_invariant (e : GuardEvent) (g g1 : GuardedSession)
    (h : e.apply g = some g1)
    (hw : g.session.write_transaction_ = g.live.headD NULL)
    (ht : ∀ t ∈ g.live.tail, t = NULL) :
    g1.session.write_transaction_ = g1.live.headD NULL ∧ ∀ t ∈ g1.live.tail, t = NULL := by
  cases e with
  | construct t =>
    simp only [GuardEvent.apply] at h
    cases hc : ScopedSetSessionWriteTransaction.construct g.session t with
    | error e =>
      rw [hc] at h
      cases h
    | ok s1 =>
      rw [hc] at h
      cases Option.some.inj h
      have hnull := construct_ok_null g.session s1 t hc
      have heq := construct_ok_eq g.session s1 t hc
      refine ⟨by rw [heq]; rfl, ?_⟩
      intro x hx
      simp only [List.tail_cons] at hx
      cases hl : g.live with
      | nil =>
        rw [hl] at hx
        cases hx
      | cons a rest =>
        rw [hl] at hx hw ht
        rcases List.mem_cons.mp hx with rfl | hmem
        · simp only [List.headD_cons] at hw
          rw [← hw]
          exact hnull
        · exact ht x hmem
  | destruct =>
    simp only [GuardEvent.apply] at h
    cases hl : g.live with
    | nil =>
      rw [hl] at h
      cases h
    | cons a rest =>
      rw [hl] at h ht
      cases Option.some.inj h
      simp only [List.tail_cons] at ht
      constructor
      · cases rest with
        | nil => rfl
        | cons b more =>
          simp only [List.headD_cons]
          exact (ht b (List.mem_cons_self _ _)).symm
      · intro x hx
        exact ht x (List.mem_of_mem_tail hx)

/-- A run of guard events keeps the shape of `GuardEvent.apply_invariant`. -/
theorem runGuards_invariant (es : List GuardEvent) (g g1 : GuardedSession)
    (h : runGuards es g = some g1)
    (hw : g.session.write_transaction_ = g.live.headD NULL)
    (ht : ∀ t ∈ g.live.tail, t = NULL) :
    g1.session.write_transaction_ = g1.live.headD NULL ∧ ∀ t ∈ g1.live.tail, t = NULL := by
  induction es generalizing g with
  | nil =>
    cases Option.some.inj h
    exact ⟨hw, ht⟩
  | cons e es ih =>
    rw [runGuards_cons] at h
    cases he : e.apply g with
    | none =>
      rw [he] at h
      cases h
    | some g2 =>
      rw [he] at h
      have hinv := GuardEvent.apply_invariant e g g2 he hw ht
      exact ih g2 h hinv.1 hinv.2

/-! ## The claims -/

/-- C1. Exactly-once source consumption: after `set_source(S)`, `N >= 1` calls
of `TestAndSetSource()` return `S` first and `SYNC_CYCLE_CONTINUATION` on every
later call, and after each of the calls the stored source is
`SYNC_CYCLE_CONTINUATION`. -/
theorem TestAndSetSource_exactly_once (s : SyncSession) (S : GET_UPDATES_SOURCE)
    (N : Nat) (hN : 1 ≤ N) :
    (callTestAndSetSource N (s.set_source S)).1
        = S :: List.replicate (N - 1) SYNC_CYCLE_CONTINUATION
    ∧ ∀ k, 1 ≤ k → k ≤ N →
        (callTestAndSetSource k (s.set_source S)).2.source_ = SYNC_CYCLE_CONTINUATION := by
  have key : ∀ n, callTestAndSetSource (n + 1) (s.set_source S)
      = (S :: List.replicate n SYNC_CYCLE_CONTINUATION,
          (s.set_source S).TestAndSetSource.2) := by
    intro n
    have h := callTestAndSetSource_of_continuation n (s.set_source S).TestAndSetSource.2 rfl
    simp only [callTestAndSetSource, h]
    rfl
  constructor
  · obtain ⟨n, rfl⟩ : ∃ n, N = n + 1 := ⟨N - 1, by omega⟩
    rw [key]
    simp
  · intro k hk _
    obtain ⟨n, rfl⟩ : ∃ n, k = n + 1 := ⟨k - 1, by omega⟩
    rw [key]
    rfl

/-- Witness of C1: three calls after `set_source(PERIODIC)`. -/
theorem TestAndSetSource_exactly_once_witness :
    1 ≤ 3
    ∧ (callTestAndSetSource 3 (sampleSession.set_source PERIODIC)).1
        = [PERIODIC, SYNC_CYCLE_CONTINUATION, SYNC_CYCLE_CONTINUATION]
    ∧ (callTestAndSetSource 2 (sampleSession.set_source PERIODIC)).2.source_
        = SYNC_CYCLE_CONTINUATION :=
  ⟨by decide,
   (TestAndSetSource_exactly_once sampleSession PERIODIC 3 (by decide)).1,
   (TestAndSetSource_exactly_once sampleSession PERIODIC 3 (by decide)).2 2
     (by decide) (by decide)⟩

/-- C2. Transaction non-nesting: constructing a guard on a session whose
`write_transaction()` is non-null aborts on the `DCHECK`, whatever handle is
passed; on a transaction-free session, constructing a guard, destroying it and
constructing a second guard all succeed, and the second handle ends up attached. -/
theorem guard_non_nesting (s : SyncSession) (t1 t2 : Pointer) :
    (s.write_transaction ≠ NULL → construct s t1 = Except.error Abort.DCHECK_FAILED)
    ∧ (s.write_transaction = NULL →
        ∃ s1 s2, construct s t1 = Except.ok s1
          ∧ construct (destruct s1) t2 = Except.ok s2
          ∧ s2.write_transaction = t2) := by
  constructor
  · intro h
    exact construct_of_attached s t1 h
  · intro h
    refine ⟨{ s with write_transaction_ := t1 },
      { destruct { s with write_transaction_ := t1 } with write_transaction_ := t2 },
      construct_of_null s t1 h, construct_of_null _ t2 rfl, rfl⟩

/-- Witness of C2: a session holding transaction `77` rejects handle `5`; the
transaction-free sample session accepts `5`, then, after the guard is destroyed,
`9`. -/
theorem guard_non_nesting_witness :
    (sampleSession.write_transaction = NULL
      ∧ ∃ s1 s2, construct sampleSession 5 = Except.ok s1
          ∧ construct (destruct s1) 9 = Except.ok s2
          ∧ s2.write_transaction = 9)
    ∧ (({ sampleSession with write_transaction_ := 77 } : SyncSession).write_transaction ≠ NULL
      ∧ construct { sampleSession with write_transaction_ := 77 } 5
          = Except.error Abort.DCHECK_FAILED) :=
  ⟨⟨rfl, (guard_non_nesting sampleSession 5 9).2 rfl⟩,
   ⟨by decide,
    (guard_non_nesting { sampleSession with write_transaction_ := 77 } 5 9).1 (by decide)⟩⟩

/-- C3. Guaranteed detachment: after the destructor of the guard has run,
`write_transaction()` is null, for every session state; in particular for the
state reached from any session by a successful construction with any handle
followed by anything `during` that happened to the session while the guard was
live. -/
theorem guard_destruct_detaches (s : SyncSession) (t : Pointer)
    (during : SyncSession → SyncSession) :
    (destruct s).write_transaction = NULL
    ∧ ∀ s1, construct s t = Except.ok s1 →
        (destruct (during s1)).write_transaction = NULL :=
  ⟨rfl, fun _ _ => rfl⟩

/-- Witness of C3: attach `5` to the sample session, reset the source and
record an auth failure while the guard is live, then destroy the guard. -/
theorem guard_destruct_detaches_witness :
    construct sampleSession 5 = Except.ok { sampleSession with write_transaction_ := 5 }
    ∧ (destruct (({ sampleSession with write_transaction_ := 5 } : SyncSession).set_source
          PERIODIC).set_auth_failure_occurred).write_transaction = NULL :=
  ⟨rfl,
   (guard_destruct_detaches sampleSession 5
      (fun x => (x.set_source PERIODIC).set_auth_failure_occurred)).2 _ rfl⟩

/-- C4. Attachment on construction: on a transaction-free session the
constructor of the guard succeeds, `write_transaction()` then returns exactly the
handle passed, and source, auth-failure flag, extensions-activity records,
context, delegate (and the status controller) are unchanged. -/
theorem guard_construct_attaches (s : SyncSession) (T : Pointer)
    (h : s.write_transaction = NULL) :
    ∃ s1, construct s T = Except.ok s1
      ∧ s1.write_transaction = T
      ∧ s1.source_ = s.source_
      ∧ s1.auth_failure_occurred = s.auth_failure_occurred
      ∧ s1.extensions_activity = s.extensions_activity
      ∧ s1.context = s.context
      ∧ s1.delegate = s.delegate
      ∧ s1.status_controller = s.status_controller :=
  ⟨{ s with write_transaction_ := T }, construct_of_null s T h,
    rfl, rfl, rfl, rfl, rfl, rfl, rfl⟩

/-- Witness of C4: attaching handle `5` to the sample session. -/
theorem guard_construct_attaches_witness :
    sampleSession.write_transaction = NULL
    ∧ ∃ s1, construct sampleSession 5 = Except.ok s1
      ∧ s1.write_transaction = 5
      ∧ s1.source_ = sampleSession.source_
      ∧ s1.auth_failure_occurred = sampleSession.auth_failure_occurred
      ∧ s1.extensions_activity = sampleSession.extensions_activity
      ∧ s1.context = sampleSession.context
      ∧ s1.delegate = sampleSession.delegate
      ∧ s1.status_controller = sampleSession.status_controller :=
  ⟨rfl, guard_construct_attaches sampleSession 5 rfl⟩

/-- C5. Convergence predicate: `HasMoreToSync()` is true exactly when the
status controller reports unresolved conflicts, unfetched server updates or
unfinished commit batches, and no terminal error; so it is false when all three
are absent, and false whenever a terminal error is recorded, conflicts or not. -/
theorem HasMoreToSync_iff (s : SyncSession) :
    (s.HasMoreToSync = true ↔
      (s.status_controller.has_unresolved_conflicts = true
        ∨ s.status_controller.has_unfetched_updates = true
        ∨ s.status_controller.has_unfinished_commits = true)
      ∧ s.status_controller.has_terminal_error = false)
    ∧ (s.status_controller.has_unresolved_conflicts = false →
        s.status_controller.has_unfetched_updates = false →
        s.status_controller.has_unfinished_commits = false →
        s.HasMoreToSync = false)
    ∧ (s.status_controller.has_terminal_error = true → s.HasMoreToSync = false) := by
  refine ⟨?_, ?_, ?_⟩
  · simp only [SyncSession.HasMoreToSync, SyncSession.status_controller, Bool.and_eq_true,
      Bool.or_eq_true, Bool.not_eq_true', or_assoc]
  · intro h1 h2 h3
    simp only [SyncSession.status_controller] at h1 h2 h3
    simp [SyncSession.HasMoreToSync, h1, h2, h3]
  · intro h
    simp only [SyncSession.status_controller] at h
    simp [SyncSession.HasMoreToSync, h]

/-- Witness of C5: the sample session with its conflict resolved has nothing
more to sync; with the conflict pending and a terminal error recorded it has
nothing more to sync either. -/
theorem HasMoreToSync_iff_witness :
    sampleSession.HasMoreToSync = true
    ∧ (sampleSession.status_controller_write
        (fun c => { c with num_pending_conflicts := 0 })).HasMoreToSync = false
    ∧ (sampleSession.status_controller_write
        (fun c => { c with terminal_error := true })).HasMoreToSync = false :=
  ⟨(HasMoreToSync_iff sampleSession).1.2 ⟨Or.inl rfl, rfl⟩,
   (HasMoreToSync_iff (sampleSession.status_controller_write
      (fun c => { c with num_pending_conflicts := 0 }))).2.1 rfl rfl rfl,
   (HasMoreToSync_iff (sampleSession.status_controller_write
      (fun c => { c with terminal_error := true }))).2.2 rfl⟩

/-- C6. Auth-flag set/clear: after `set_auth_failure_occurred()` the accessor
returns true, after `clear_auth_failure_occurred()` it returns false, and set
followed by clear leaves it false, whatever it was before. -/
theorem auth_failure_set_clear (s : SyncSession) :
    s.set_auth_failure_occurred.auth_failure_occurred = true
    ∧ s.clear_auth_failure_occurred.auth_failure_occurred = false
    ∧ s.set_auth_failure_occurred.clear_auth_failure_occurred.auth_failure_occurred = false :=
  ⟨rfl, rfl, rfl⟩

/-- C7. The auth-failure flag is never cleared implicitly: on a session whose
`auth_failure_occurred()` is true, every operation other than
`clear_auth_failure_occurred()` either yields a session whose flag is still true
or is a guard construction that aborts on its `DCHECK`; and so does every
sequence of such operations that runs to its end. -/
theorem auth_failure_never_cleared_implicitly (s : SyncSession) (op : Op)
    (h : s.auth_failure_occurred = true) (hop : op.isClearAuthFailure = false) :
    ((∃ s1, op.apply s = Except.ok s1 ∧ s1.auth_failure_occurred = true)
      ∨ (op.isGuardConstruct = true ∧ s.write_transaction ≠ NULL
          ∧ op.apply s = Except.error Abort.DCHECK_FAILED))
    ∧ ∀ ops s1, (∀ o ∈ ops, o.isClearAuthFailure = false) →
        run ops s = Except.ok s1 → s1.auth_failure_occurred = true := by
  constructor
  · rcases apply_ok_or_abort op s with ⟨s1, h1⟩ | habort
    · exact Or.inl ⟨s1, h1, apply_auth_failure op s s1 hop h1 h⟩
    · exact Or.inr habort
  · intro ops s1 hops hrun
    exact run_preserves (fun x => x.auth_failure_occurred_ = true)
      (fun o => o.isClearAuthFailure = false)
      (fun o a b ho hab ha => apply_auth_failure o a b ho hab ha) ops s s1 hops hrun h

/-- Witness of C7: on the sample session, whose flag is set, consuming the
source, resetting it, attaching and detaching a transaction keep the flag. -/
theorem auth_failure_never_cleared_implicitly_witness :
    sampleSession.auth_failure_occurred = true
    ∧ Op.isClearAuthFailure Op.TestAndSetSource = false
    ∧ run [Op.TestAndSetSource, Op.set_source PERIODIC, Op.guard_construct 5,
            Op.guard_destruct] sampleSession
        = Except.ok { sampleSession with source_ := PERIODIC }
    ∧ ({ sampleSession with source_ := PERIODIC } : SyncSession).auth_failure_occurred = true :=
  ⟨rfl, rfl, rfl,
   (auth_failure_never_cleared_implicitly sampleSession Op.TestAndSetSource rfl rfl).2
     [Op.TestAndSetSource, Op.set_source PERIODIC, Op.guard_construct 5, Op.guard_destruct]
     _ (by simp [Op.isClearAuthFailure]) rfl⟩

/-- Counterexample to C8: on the sample session (source `LOCAL`) the first
`TestAndSetSource()` consumes `LOCAL`; a later `set_source(PERIODIC)` is stored,
and the next read, by `TestAndSetSource()`, observes `PERIODIC`, not the
continuation sentinel. -/
theorem source_frozen_after_consumption_counterexample :
    sampleSession.TestAndSetSource.1 = LOCAL
    ∧ run [Op.set_source PERIODIC] sampleSession.TestAndSetSource.2
        = Except.ok { sampleSession with source_ := PERIODIC }
    ∧ ({ sampleSession with source_ := PERIODIC } : SyncSession).TestAndSetSource.1 = PERIODIC
    ∧ PERIODIC ≠ SYNC_CYCLE_CONTINUATION :=
  ⟨rfl, rfl, rfl, by decide⟩

/-- C8, amended. Once `TestAndSetSource()` has been called, every later read of
the source (the stored member, the next `TestAndSetSource()`, a snapshot)
observes the continuation sentinel after every sequence of session operations
that contains no `set_source` call; such a sequence runs to its end unless a
guard construction in it aborts. -/
theorem source_stays_consumed_without_set_source (s : SyncSession) (ops : List Op)
    (hops : ∀ o ∈ ops, o.isSetSource = false) :
    (∀ s1, run ops s.TestAndSetSource.2 = Except.ok s1 →
        s1.source_ = SYNC_CYCLE_CONTINUATION
        ∧ s1.TestAndSetSource.1 = SYNC_CYCLE_CONTINUATION
        ∧ s1.TakeSnapshot.source = SYNC_CYCLE_CONTINUATION)
    ∧ ((∀ o ∈ ops, o.isGuardConstruct = false) →
        ∃ s1, run ops s.TestAndSetSource.2 = Except.ok s1) := by
  constructor
  · intro s1 hrun
    have hsrc : s1.source_ = SYNC_CYCLE_CONTINUATION :=
      run_preserves (fun x => x.source_ = SYNC_CYCLE_CONTINUATION)
        (fun o => o.isSetSource = false)
        (fun o a b ho hab ha => apply_source o a b ho hab ha) ops _ s1 hops hrun rfl
    exact ⟨hsrc, hsrc, hsrc⟩
  · intro hg
    exact run_ok_of_no_guard_construct ops _ hg

/-- Witness of C8, amended: after the sample session's source is consumed, a
guard is attached, an auth failure recorded, the guard destroyed and the source
read again; it still reads as the continuation sentinel. -/
theorem source_stays_consumed_without_set_source_witness :
    run [Op.guard_construct 5, Op.set_auth_failure_occurred, Op.guard_destruct,
          Op.TestAndSetSource]
        sampleSession.TestAndSetSource.2
      = Except.ok { sampleSession with source_ := SYNC_CYCLE_CONTINUATION }
    ∧ ({ sampleSession with source_ := SYNC_CYCLE_CONTINUATION } : SyncSession).source_
        = SYNC_CYCLE_CONTINUATION
    ∧ ({ sampleSession with source_ := SYNC_CYCLE_CONTINUATION } : SyncSession).TestAndSetSource.1
        = SYNC_CYCLE_CONTINUATION
    ∧ ({ sampleSession with source_ := SYNC_CYCLE_CONTINUATION } : SyncSession).TakeSnapshot.source
        = SYNC_CYCLE_CONTINUATION :=
  ⟨rfl,
   (source_stays_consumed_without_set_source sampleSession
      [Op.guard_construct 5, Op.set_auth_failure_occurred, Op.guard_destruct,
        Op.TestAndSetSource]
      (by simp [Op.isSetSource])).1 _ rfl⟩

/-- C9. `set_source` is a plain, non-consuming accessor: `set_source(S)` makes
the stored source exactly `S`, so the next `TestAndSetSource()` returns `S`,
also after any number of earlier `set_source` calls, and it changes no other
member: write transaction, auth-failure flag, extensions-activity records,
context, delegate, status controller. -/
theorem set_source_plain_accessor (s : SyncSession) (S : GET_UPDATES_SOURCE)
    (earlier : List GET_UPDATES_SOURCE) :
    (s.set_source S).source_ = S
    ∧ (s.set_source S).TestAndSetSource.1 = S
    ∧ ((earlier.foldl (fun session x => session.set_source x) s).set_source S).TestAndSetSource.1
        = S
    ∧ (s.set_source S).write_transaction = s.write_transaction
    ∧ (s.set_source S).auth_failure_occurred = s.auth_failure_occurred
    ∧ (s.set_source S).extensions_activity = s.extensions_activity
    ∧ (s.set_source S).context = s.context
    ∧ (s.set_source S).delegate = s.delegate
    ∧ (s.set_source S).status_controller = s.status_controller :=
  ⟨rfl, rfl, rfl, rfl, rfl, rfl, rfl, rfl, rfl⟩

/-- C10. The session never clears the extensions-activity records on its own:
every operation other than a write through `mutable_extensions_activity()`
either yields a session with the same `extensions_activity()` or is a guard
construction that aborts; so does every sequence of such operations that runs
to its end; and a write through `mutable_extensions_activity()` is what
`extensions_activity()` reads afterwards. -/
theorem extensions_activity_frame (s : SyncSession) (op : Op)
    (hop : op.isExtensionsWrite = false) :
    ((∃ s1, op.apply s = Except.ok s1 ∧ s1.extensions_activity = s.extensions_activity)
      ∨ (op.isGuardConstruct = true ∧ s.write_transaction ≠ NULL
          ∧ op.apply s = Except.error Abort.DCHECK_FAILED))
    ∧ (∀ ops s1, (∀ o ∈ ops, o.isExtensionsWrite = false) →
        run ops s = Except.ok s1 → s1.extensions_activity = s.extensions_activity)
    ∧ ∀ update : Records → Records,
        (s.mutable_extensions_activity update).extensions_activity
          = update s.extensions_activity := by
  refine ⟨?_, ?_, fun _ => rfl⟩
  · rcases apply_ok_or_abort op s with ⟨s1, h1⟩ | habort
    · exact Or.inl ⟨s1, h1, apply_extensions_activity op s s1 hop h1⟩
    · exact Or.inr habort
  · intro ops s1 hops hrun
    exact run_preserves (fun x => x.extensions_activity_ = s.extensions_activity_)
      (fun o => o.isExtensionsWrite = false)
      (fun o a b ho hab ha => (apply_extensions_activity o a b ho hab).trans ha)
      ops s s1 hops hrun rfl

/-- Witness of C10: on the sample session, taking a snapshot, asking
`HasMoreToSync()`, consuming the source, clearing the auth flag and attaching
and detaching a transaction leave the one recorded extension in place. -/
theorem extensions_activity_frame_witness :
    Op.isExtensionsWrite Op.TakeSnapshot = false
    ∧ run [Op.TakeSnapshot, Op.HasMoreToSync, Op.TestAndSetSource,
            Op.clear_auth_failure_occurred, Op.guard_construct 5, Op.guard_destruct]
          sampleSession
        = Except.ok { sampleSession with
            source_ := SYNC_CYCLE_CONTINUATION, auth_failure_occurred_ := false }
    ∧ ({ sampleSession with
          source_ := SYNC_CYCLE_CONTINUATION,
          auth_failure_occurred_ := false } : SyncSession).extensions_activity
        = sampleSession.extensions_activity :=
  ⟨rfl, rfl,
   (extensions_activity_frame sampleSession Op.TakeSnapshot rfl).2.1
     [Op.TakeSnapshot, Op.HasMoreToSync, Op.TestAndSetSource,
       Op.clear_auth_failure_occurred, Op.guard_construct 5, Op.guard_destruct]
     _ (by simp [Op.isExtensionsWrite]) rfl⟩

/-- C11. At most one transaction is attached at a time: on a session that
starts transaction-free, at every point `k` of a sequence of guard constructions
and destructions (most recent guard destroyed first, no construction failing),
at most one live guard holds a non-null handle, `write_transaction()` is that
handle when there is such a guard, and null otherwise. -/
theorem at_most_one_transaction_attached (s : SyncSession) (events : List GuardEvent)
    (k : Nat) (g : GuardedSession)
    (h0 : s.write_transaction = NULL)
    (hrun : runGuards (events.take k) { session := s, live := [] } = some g) :
    g.attached.length ≤ 1
    ∧ (∀ t ∈ g.attached, g.session.write_transaction = t)
    ∧ (g.attached = [] → g.session.write_transaction = NULL) := by
  obtain ⟨hw, ht⟩ := runGuards_invariant (events.take k) { session := s, live := [] } g hrun
    h0 (fun t ht => by cases ht)
  cases hl : g.live with
  | nil =>
    simp [GuardedSession.attached, SyncSession.write_transaction, hl] at hw ⊢
    exact hw
  | cons a rest =>
    rw [hl] at hw ht
    simp only [List.headD_cons, List.tail_cons] at hw ht
    have hrest : rest.filter (fun t => decide (t ≠ NULL)) = [] := by
      rw [List.filter_eq_nil_iff]
      intro x hx
      simp [ht x hx]
    by_cases ha : a = NULL
    · have hatt : g.attached = [] := by
        simp only [GuardedSession.attached, hl, List.filter_cons, hrest]
        simp [ha]
      rw [hatt]
      refine ⟨by simp, fun t ht => by simp at ht, fun _ => ?_⟩
      show g.session.write_transaction_ = NULL
      rw [hw, ha]
    · have hatt : g.attached = [a] := by
        simp only [GuardedSession.attached, hl, List.filter_cons, hrest]
        simp [ha]
      rw [hatt]
      refine ⟨by simp, fun t ht => ?_, fun hnil => by cases hnil⟩
      rw [List.mem_singleton] at ht
      show g.session.write_transaction_ = t
      rw [hw, ht]

/-- Witness of C11: on the sample session, a guard with a null handle, a guard
with handle `5`, its destruction, then a guard with handle `7`; the fifth
event is not reached at point 4. -/
theorem at_most_one_transaction_attached_witness :
    sampleSession.write_transaction = NULL
    ∧ runGuards
        ([GuardEvent.construct NULL, GuardEvent.construct 5, GuardEvent.destruct,
          GuardEvent.construct 7, GuardEvent.destruct].take 4)
        (GuardedSession.mk sampleSession [])
      = some (GuardedSession.mk (sampleSessionWith 7) [7, NULL])
    ∧ (GuardedSession.mk (sampleSessionWith 7) [7, NULL]).attached.length ≤ 1
    ∧ (∀ t ∈ (GuardedSession.mk (sampleSessionWith 7) [7, NULL]).attached,
        (sampleSessionWith 7).write_transaction = t)
    ∧ ((GuardedSession.mk (sampleSessionWith 7) [7, NULL]).attached = [] →
        (sampleSessionWith 7).write_transaction = NULL) :=
  ⟨rfl, rfl,
   at_most_one_transaction_attached sampleSession
     [GuardEvent.construct NULL, GuardEvent.construct 5, GuardEvent.destruct,
       GuardEvent.construct 7, GuardEvent.destruct] 4 _ rfl rfl⟩

/-- C13. Initial state: constructing a session with a non-null context and a
non-null delegate succeeds, and the new session has source `UNKNOWN`, no write
transaction attached, `auth_failure_occurred()` false, and `context()` and
`delegate()` equal to the arguments. -/
theorem SyncSession_initial_state (context delegate : Pointer)
    (hc : context ≠ NULL) (hd : delegate ≠ NULL) :
    ∃ s, SyncSession.construct context delegate = Except.ok s
      ∧ s.source_ = UNKNOWN
      ∧ s.write_transaction = NULL
      ∧ s.auth_failure_occurred = false
      ∧ s.context = context
      ∧ s.delegate = delegate := by
  have hok : SyncSession.construct context delegate = Except.ok
      { context_ := context
        source_ := UNKNOWN
        extensions_activity_ := []
        write_transaction_ := NULL
        delegate_ := delegate
        status_controller_ := StatusController.fresh
        auth_failure_occurred_ := false } := by
    simp [SyncSession.construct, hc, hd]
  exact ⟨_, hok, rfl, rfl, rfl, rfl, rfl⟩

/-- Witness of C13: a session on context `4096` with delegate `8192`. -/
theorem SyncSession_initial_state_witness :
    (4096 : Pointer) ≠ NULL ∧ (8192 : Pointer) ≠ NULL
    ∧ ∃ s, SyncSession.construct 4096 8192 = Except.ok s
      ∧ s.source_ = UNKNOWN
      ∧ s.write_transaction = NULL
      ∧ s.auth_failure_occurred = false
      ∧ s.context = 4096
      ∧ s.delegate = 8192 :=
  ⟨by decide, by decide, SyncSession_initial_state 4096 8192 (by decide) (by decide)⟩

/-- C15. A null handle does not count as an attached transaction: on a
transaction-free session, constructing a guard with `NULL` succeeds and leaves
`write_transaction()` null, so a second guard, with any handle, can be
constructed while the first is still live. -/
theorem null_handle_not_attached (s : SyncSession) (t : Pointer)
    (h : s.write_transaction = NULL) :
    ∃ s1 s2, construct s NULL = Except.ok s1
      ∧ s1.write_transaction = NULL
      ∧ construct s1 t = Except.ok s2
      ∧ s2.write_transaction = t
      ∧ runGuards [GuardEvent.construct NULL, GuardEvent.construct t]
          { session := s, live := [] }
        = some { session := s2, live := [t, NULL] } := by
  have h1 := construct_of_null s NULL h
  have h2 := construct_of_null { s with write_transaction_ := NULL } t rfl
  refine ⟨_, _, h1, rfl, h2, rfl, ?_⟩
  simp only [runGuards, GuardEvent.apply, h1, h2]

/-- Witness of C15: on the sample session a guard with a null handle, then,
while it is live, a guard with handle `5`. -/
theorem null_handle_not_attached_witness :
    sampleSession.write_transaction = NULL
    ∧ ∃ s1 s2, construct sampleSession NULL = Except.ok s1
      ∧ s1.write_transaction = NULL
      ∧ construct s1 5 = Except.ok s2
      ∧ s2.write_transaction = 5
      ∧ runGuards [GuardEvent.construct NULL, GuardEvent.construct 5]
          { session := sampleSession, live := [] }
        = some { session := s2, live := [5, NULL] } :=
  ⟨rfl, null_handle_not_attached sampleSession 5 rfl⟩

end sessions
end browser_sync

namespace EtwTraceProvider

/-- Two numbers have a non-zero bitwise and exactly when they share a set bit. -/
theorem land_ne_zero_iff (a b : Nat) :
    a &&& b ≠ 0 ↔ ∃ i, a.testBit i = true ∧ b.testBit i = true := by
  constructor
  · intro h
    obtain ⟨i, hi⟩ := Nat.ne_zero_implies_bit_true h
    rw [Nat.testBit_and, Bool.and_eq_true] at hi
    exact ⟨i, hi⟩
  · rintro ⟨i, ha, hb⟩ h0
    have hbit : (a &&& b).testBit i = true := by
      rw [Nat.testBit_and, ha, hb]
      rfl
    rw [h0, Nat.zero_testBit] at hbit
    cases hbit

/-- C14. `ShouldLog(level, flags)` is true exactly when the session handle is
non-null, `level >= enable_level`, and `flags` shares a set bit with
`enable_flags`; so `ShouldLog(level, 0)` is false for every provider and level,
and `ShouldLog` is false for every argument while the session handle is null. -/
theorem ShouldLog_iff (p : EtwTraceProvider) (level flags : Nat) :
    (p.ShouldLog level flags = true ↔
      p.session_handle ≠ 0 ∧ level ≥ p.enable_level
        ∧ ∃ i, flags.testBit i = true ∧ p.enable_flags.testBit i = true)
    ∧ p.ShouldLog level 0 = false
    ∧ (p.session_handle = 0 → p.ShouldLog level flags = false) := by
  refine ⟨?_, ?_, ?_⟩
  · rw [← land_ne_zero_iff]
    simp only [ShouldLog, session_handle, enable_level, enable_flags, Bool.and_eq_true,
      decide_eq_true_eq, and_assoc]
    constructor
    · rintro ⟨h1, h2, h3⟩
      exact ⟨fun h => h1 h.symm, h2, fun h => h3 h.symm⟩
    · rintro ⟨h1, h2, h3⟩
      exact ⟨fun h => h1 h.symm, h2, fun h => h3 h.symm⟩
  · simp [ShouldLog]
  · intro h
    simp only [session_handle] at h
    simp [ShouldLog, h]

/-- Witness of C14: the sample provider logs level 4 with flag bit 1, which it
has enabled; the same provider with a null session handle logs nothing. -/
theorem ShouldLog_iff_witness :
    sampleProvider.ShouldLog 4 2 = true
    ∧ ({ sampleProvider with session_handle_ := 0 } : EtwTraceProvider).session_handle = 0
    ∧ ({ sampleProvider with session_handle_ := 0 } : EtwTraceProvider).ShouldLog 4 2 = false :=
  ⟨(ShouldLog_iff sampleProvider 4 2).1.2 ⟨by decide, by decide, 1, by decide, by decide⟩,
   rfl,
   (ShouldLog_iff { sampleProvider with session_handle_ := 0 } 4 2).2.2 rfl⟩

end EtwTraceProvider

namespace appcache

open browser_sync.sessions (Pointer NULL Abort DCHECK)
open AppCacheURLRequestJob

/-! ## Basic facts about the job -/

/-- A job has no delivery orders exactly while it awaits them. -/
theorem has_delivery_orders_eq_false (j : AppCacheURLRequestJob) :
    j.has_delivery_orders = false ↔ j.delivery_type_ = DeliveryType.AWAITING_DELIVERY_ORDERS := by
  simp [has_delivery_orders]

/-- `Start` on a job that has not been started. -/
theorem Start_ok (j : AppCacheURLRequestJob) (hs : j.has_been_started = false) :
    j.Start = Except.ok ({ j with has_been_started_ := true },
      MaybeBeginDelivery { j with has_been_started_ := true }) := by
  simp only [has_been_started] at hs
  simp [Start, has_been_started, hs, DCHECK, bind, Except.bind, pure, Except.pure]

/-- A delivery order given to a job that has none records the delivery type. -/
theorem deliver_ok (d : Delivery) (j : AppCacheURLRequestJob)
    (ho : j.has_delivery_orders = false) (hd : d.wellFormed = true) :
    ∃ j1, d.deliver j = Except.ok (j1, j1.MaybeBeginDelivery)
      ∧ j1.has_delivery_orders = true
      ∧ j1.has_been_started_ = j.has_been_started_
      ∧ j1.has_been_killed_ = j.has_been_killed_ := by
  cases d with
  | AppCachedResponse manifest_url cache_id entry =>
    simp only [Delivery.wellFormed] at hd
    refine ⟨{ j with
      delivery_type_ := DeliveryType.APPCACHED_DELIVERY
      manifest_url_ := manifest_url
      cache_id_ := cache_id
      entry_ := entry }, ?_, rfl, rfl, rfl⟩
    simp [Delivery.deliver, DeliverAppCachedResponse, ho, hd, DCHECK, bind, Except.bind,
      pure, Except.pure]
  | NetworkResponse =>
    refine ⟨{ j with delivery_type_ := DeliveryType.NETWORK_DELIVERY, storage_ := NULL },
      ?_, rfl, rfl, rfl⟩
    simp [Delivery.deliver, DeliverNetworkResponse, ho, DCHECK, bind, Except.bind,
      pure, Except.pure]
  | ErrorResponse =>
    refine ⟨{ j with delivery_type_ := DeliveryType.ERROR_DELIVERY, storage_ := NULL },
      ?_, rfl, rfl, rfl⟩
    simp [Delivery.deliver, DeliverErrorResponse, ho, DCHECK, bind, Except.bind,
      pure, Except.pure]

/-! ## The claims about the job -/

/-- C16. Delivery begins exactly once, when both preconditions hold: on a job
that has not been started and has no delivery orders, `Start()` and one
well-formed delivery order, in either order, post the `BeginDelivery` task
exactly once, during the second of the two calls; the first call posts nothing,
and `MaybeBeginDelivery` posts nothing while the job is not started or has no
delivery orders. -/
theorem delivery_begins_exactly_once (j : AppCacheURLRequestJob) (d : Delivery)
    (hs : j.has_been_started = false) (ho : j.has_delivery_orders = false)
    (hd : d.wellFormed = true) :
    (∃ j1 j2, j.Start = Except.ok (j1, [])
        ∧ d.deliver j1 = Except.ok (j2, [Effect.PostTask_BeginDelivery]))
    ∧ (∃ j1 j2, d.deliver j = Except.ok (j1, [])
        ∧ j1.Start = Except.ok (j2, [Effect.PostTask_BeginDelivery]))
    ∧ ∀ x : AppCacheURLRequestJob,
        x.has_been_started = false ∨ x.has_delivery_orders = false →
          x.MaybeBeginDelivery = [] := by
  refine ⟨?_, ?_, ?_⟩
  · have h1 := Start_ok j hs
    have hm : MaybeBeginDelivery { j with has_been_started_ := true } = [] := by
      have ho1 : has_delivery_orders { j with has_been_started_ := true } = false := ho
      simp [MaybeBeginDelivery, ho1]
    rw [hm] at h1
    obtain ⟨j2, h2, horders, hstarted, _⟩ :=
      deliver_ok d { j with has_been_started_ := true } ho hd
    refine ⟨{ j with has_been_started_ := true }, j2, h1, ?_⟩
    rw [h2]
    have hst : j2.has_been_started = true := hstarted
    simp [MaybeBeginDelivery, horders, hst]
  · obtain ⟨j1, h1, horders, hstarted, _⟩ := deliver_ok d j ho hd
    have hst : j1.has_been_started = false := hstarted.trans hs
    have hm : j1.MaybeBeginDelivery = [] := by
      simp [MaybeBeginDelivery, hst]
    rw [hm] at h1
    refine ⟨j1, { j1 with has_been_started_ := true }, h1, ?_⟩
    rw [Start_ok j1 hst]
    have ho2 : has_delivery_orders { j1 with has_been_started_ := true } = true := horders
    simp [MaybeBeginDelivery, ho2, has_been_started]
  · intro x hx
    rcases hx with hx | hx <;> simp [MaybeBeginDelivery, hx]

/-- Witness of C16: the sample job, started and then given an app-cached
response with response id 7, and the other way round. -/
theorem delivery_begins_exactly_once_witness :
    sampleJob.has_been_started = false ∧ sampleJob.has_delivery_orders = false
    ∧ (∃ j1 j2, sampleJob.Start = Except.ok (j1, [])
        ∧ (Delivery.AppCachedResponse "manifest" 3
              { has_response_id := true, response_id := 7 }).deliver j1
            = Except.ok (j2, [Effect.PostTask_BeginDelivery]))
    ∧ (∃ j1 j2, (Delivery.AppCachedResponse "manifest" 3
              { has_response_id := true, response_id := 7 }).deliver sampleJob
            = Except.ok (j1, [])
        ∧ j1.Start = Except.ok (j2, [Effect.PostTask_BeginDelivery])) :=
  ⟨rfl, rfl,
   (delivery_begins_exactly_once sampleJob
      (Delivery.AppCachedResponse "manifest" 3 { has_response_id := true, response_id := 7 })
      rfl rfl rfl).1,
   (delivery_begins_exactly_once sampleJob
      (Delivery.AppCachedResponse "manifest" 3 { has_response_id := true, response_id := 7 })
      rfl rfl rfl).2.1⟩

/-- C17. `BeginDelivery` dispatches on the delivery type unless the job was
killed.  With its entry check holding (the job is started and has delivery
orders): a killed job issues nothing; otherwise `NETWORK_DELIVERY` issues only
`NotifyRestartRequired`, `ERROR_DELIVERY` only `NotifyStartError` with status
`FAILED` and `ERR_FAILED`, and `APPCACHED_DELIVERY`, on the storage the job
holds, only `LoadResponseInfo` for the recorded manifest URL and response id,
which are those `DeliverAppCachedResponse` was given.  When the entry check
fails the call aborts and issues nothing. -/
theorem BeginDelivery_dispatch (ERR_FAILED : Int) (j : AppCacheURLRequestJob) :
    ((j.has_delivery_orders && j.has_been_started) = true →
      (j.has_been_killed = true → j.BeginDelivery ERR_FAILED = Except.ok (j, []))
      ∧ (j.has_been_killed = false → j.delivery_type_ = DeliveryType.NETWORK_DELIVERY →
          j.BeginDelivery ERR_FAILED = Except.ok (j, [Effect.NotifyRestartRequired]))
      ∧ (j.has_been_killed = false → j.delivery_type_ = DeliveryType.ERROR_DELIVERY →
          j.BeginDelivery ERR_FAILED = Except.ok (j, [Effect.NotifyStartError
            { status := URLRequestStatus.Status.FAILED, os_error := ERR_FAILED }]))
      ∧ (j.has_been_killed = false → j.delivery_type_ = DeliveryType.APPCACHED_DELIVERY →
          j.storage_ ≠ NULL →
          j.BeginDelivery ERR_FAILED = Except.ok (j,
            [Effect.LoadResponseInfo j.storage_ j.manifest_url_ j.entry_.response_id])))
    ∧ ((j.has_delivery_orders && j.has_been_started) = false →
        j.BeginDelivery ERR_FAILED = Except.error Abort.DCHECK_FAILED)
    ∧ ∀ manifest_url cache_id entry j1 effects,
        j.DeliverAppCachedResponse manifest_url cache_id entry = Except.ok (j1, effects) →
          j1.delivery_type_ = DeliveryType.APPCACHED_DELIVERY
          ∧ j1.manifest_url_ = manifest_url
          ∧ j1.entry_ = entry
          ∧ j1.storage_ = j.storage_ := by
  refine ⟨fun hck => ⟨?_, ?_, ?_, ?_⟩, ?_, ?_⟩
  · intro hk
    simp [BeginDelivery, hck, hk, DCHECK, bind, Except.bind, pure, Except.pure]
  · intro hk ht
    simp [BeginDelivery, hck, hk, ht, DCHECK, bind, Except.bind, pure, Except.pure]
  · intro hk ht
    simp [BeginDelivery, hck, hk, ht, DCHECK, bind, Except.bind, pure, Except.pure]
  · intro hk ht hst
    simp [BeginDelivery, hck, hk, ht, hst, DCHECK, bind, Except.bind, pure, Except.pure]
  · intro hck
    simp [BeginDelivery, hck, DCHECK, bind, Except.bind]
  · intro manifest_url cache_id entry j1 effects h
    by_cases ho : j.has_delivery_orders = true
    · simp [DeliverAppCachedResponse, ho, DCHECK, bind, Except.bind] at h
    · by_cases he : entry.has_response_id = true
      · simp [DeliverAppCachedResponse, ho, he, DCHECK, bind, Except.bind, pure,
          Except.pure] at h
        obtain ⟨rfl, _⟩ := h
        exact ⟨rfl, rfl, rfl, rfl⟩
      · simp [DeliverAppCachedResponse, ho, he, DCHECK, bind, Except.bind] at h

/-- Witness of C17: the sample job, given an app-cached response for
`"manifest"` with response id 7 and then started, loads the response info for
that URL and id from its storage 64; killed, it issues nothing. -/
theorem BeginDelivery_dispatch_witness :
    sampleJob.DeliverAppCachedResponse "manifest" 3 { has_response_id := true, response_id := 7 }
      = Except.ok ({ sampleJob with
          delivery_type_ := DeliveryType.APPCACHED_DELIVERY
          manifest_url_ := "manifest"
          cache_id_ := 3
          entry_ := { has_response_id := true, response_id := 7 } }, [])
    ∧ BeginDelivery (-2) { sampleJob with
          delivery_type_ := DeliveryType.APPCACHED_DELIVERY
          manifest_url_ := "manifest"
          cache_id_ := 3
          entry_ := { has_response_id := true, response_id := 7 }
          has_been_started_ := true }
        = Except.ok ({ sampleJob with
          delivery_type_ := DeliveryType.APPCACHED_DELIVERY
          manifest_url_ := "manifest"
          cache_id_ := 3
          entry_ := { has_response_id := true, response_id := 7 }
          has_been_started_ := true }, [Effect.LoadResponseInfo 64 "manifest" 7])
    ∧ BeginDelivery (-2) { sampleJob with
          delivery_type_ := DeliveryType.APPCACHED_DELIVERY
          has_been_started_ := true
          has_been_killed_ := true }
        = Except.ok ({ sampleJob with
          delivery_type_ := DeliveryType.APPCACHED_DELIVERY
          has_been_started_ := true
          has_been_killed_ := true }, []) :=
  ⟨rfl,
   (BeginDelivery_dispatch (-2) { sampleJob with
      delivery_type_ := DeliveryType.APPCACHED_DELIVERY
      manifest_url_ := "manifest"
      cache_id_ := 3
      entry_ := { has_response_id := true, response_id := 7 }
      has_been_started_ := true }).1 rfl |>.2.2.2 rfl rfl (by decide),
   (BeginDelivery_dispatch (-2) { sampleJob with
      delivery_type_ := DeliveryType.APPCACHED_DELIVERY
      has_been_started_ := true
      has_been_killed_ := true }).1 rfl |>.1 rfl⟩

/-- C18. `GetLoadState` follows the decision table: idle if not started;
otherwise waiting for the cache if there are no delivery orders; otherwise idle
if the delivery type is not `APPCACHED_DELIVERY`; otherwise waiting for the
cache if the response info is not loaded; otherwise reading the response if a
reader exists with a read pending; otherwise idle.  So reading the response is
returned only for a started, appcache-delivering job with loaded info and a
pending read. -/
theorem GetLoadState_table (j : AppCacheURLRequestJob) :
    j.GetLoadState
      = loadStateTable j.has_been_started j.has_delivery_orders
          (decide (j.delivery_type_ = DeliveryType.APPCACHED_DELIVERY))
          (decide (j.info_ ≠ NULL)) j.readPending
    ∧ (j.GetLoadState = net.LoadState.LOAD_STATE_READING_RESPONSE ↔
        j.has_been_started = true
        ∧ j.delivery_type_ = DeliveryType.APPCACHED_DELIVERY
        ∧ j.info_ ≠ NULL
        ∧ ∃ r, j.reader_ = some r ∧ r.is_read_pending = true) := by
  obtain ⟨storage, started, killed, type, url, cache, entry, info, reader⟩ := j
  constructor
  · by_cases hi : info = NULL <;> cases started <;> cases type <;> cases reader with
      | none => simp [GetLoadState, loadStateTable, readPending, has_been_started,
          has_delivery_orders, hi]
      | some r =>
        cases hr : r.is_read_pending <;>
          simp [GetLoadState, loadStateTable, readPending, has_been_started,
            has_delivery_orders, hi, hr]
  · by_cases hi : info = NULL <;> cases started <;> cases type <;> cases reader with
      | none => simp [GetLoadState, has_been_started, has_delivery_orders, hi]
      | some r =>
        cases hr : r.is_read_pending <;>
          simp [GetLoadState, has_been_started, has_delivery_orders, hi, hr]

/-- Unfolding of a run of calls that starts with one call. -/
theorem runCalls_cons (ERR_FAILED : Int) (c : Call) (cs : List Call)
    (j : AppCacheURLRequestJob) :
    runCalls ERR_FAILED (c :: cs) j =
      match c.apply ERR_FAILED j with
      | Except.error e => Except.error e
      | Except.ok r1 =>
        match runCalls ERR_FAILED cs r1.1 with
        | Except.error e => Except.error e
        | Except.ok r2 => Except.ok (r2.1, r1.2 ++ r2.2) := rfl

/-- No call lets a killed job hold a reader or a storage reference. -/
theorem call_keeps_killed_invariant (ERR_FAILED : Int) (c : Call)
    (j j1 : AppCacheURLRequestJob) (effects : List Effect)
    (h : c.apply ERR_FAILED j = Except.ok (j1, effects))
    (hinv : j.has_been_killed_ = true → j.reader_ = none ∧ j.storage_ = NULL) :
    j1.has_been_killed_ = true → j1.reader_ = none ∧ j1.storage_ = NULL := by
  cases c with
  | Deliver d =>
    cases d with
    | AppCachedResponse manifest_url cache_id entry =>
      by_cases ho : j.has_delivery_orders = true
      · simp [Call.apply, Delivery.deliver, DeliverAppCachedResponse, ho, DCHECK, bind,
          Except.bind] at h
      · by_cases he : entry.has_response_id = true
        · simp [Call.apply, Delivery.deliver, DeliverAppCachedResponse, ho, he, DCHECK, bind,
            Except.bind, pure, Except.pure] at h
          obtain ⟨rfl, _⟩ := h
          exact hinv
        · simp [Call.apply, Delivery.deliver, DeliverAppCachedResponse, ho, he, DCHECK, bind,
            Except.bind] at h
    | NetworkResponse =>
      by_cases ho : j.has_delivery_orders = true
      · simp [Call.apply, Delivery.deliver, DeliverNetworkResponse, ho, DCHECK, bind,
          Except.bind] at h
      · simp [Call.apply, Delivery.deliver, DeliverNetworkResponse, ho, DCHECK, bind,
          Except.bind, pure, Except.pure] at h
        obtain ⟨rfl, _⟩ := h
        intro hk
        exact ⟨(hinv hk).1, rfl⟩
    | ErrorResponse =>
      by_cases ho : j.has_delivery_orders = true
      · simp [Call.apply, Delivery.deliver, DeliverErrorResponse, ho, DCHECK, bind,
          Except.bind] at h
      · simp [Call.apply, Delivery.deliver, DeliverErrorResponse, ho, DCHECK, bind,
          Except.bind, pure, Except.pure] at h
        obtain ⟨rfl, _⟩ := h
        intro hk
        exact ⟨(hinv hk).1, rfl⟩
  | Start =>
    by_cases hs : j.has_been_started = true
    · simp [Call.apply, Start, hs, DCHECK, bind, Except.bind] at h
    · simp [Call.apply, Start, hs, DCHECK, bind, Except.bind, pure, Except.pure] at h
      obtain ⟨rfl, _⟩ := h
      exact hinv
  | BeginDelivery =>
    have hj : j = j1 := by
      by_cases hck : (j.has_delivery_orders && j.has_been_started) = true
      · by_cases hk : j.has_been_killed = true
        · simp [Call.apply, BeginDelivery, hck, hk, DCHECK, bind, Except.bind, pure,
            Except.pure] at h
          exact h.1
        · cases ht : j.delivery_type_ with
          | AWAITING_DELIVERY_ORDERS =>
            simp [Call.apply, BeginDelivery, hck, hk, ht, DCHECK, NOTREACHED, bind,
              Except.bind, pure, Except.pure] at h
          | APPCACHED_DELIVERY =>
            by_cases hst : j.storage_ = NULL
            · simp [Call.apply, BeginDelivery, hck, hk, ht, hst, DCHECK, bind, Except.bind,
                pure, Except.pure] at h
            · simp [Call.apply, BeginDelivery, hck, hk, ht, hst, DCHECK, bind, Except.bind,
                pure, Except.pure] at h
              exact h.1
          | NETWORK_DELIVERY =>
            simp [Call.apply, BeginDelivery, hck, hk, ht, DCHECK, bind, Except.bind, pure,
              Except.pure] at h
            exact h.1
          | ERROR_DELIVERY =>
            simp [Call.apply, BeginDelivery, hck, hk, ht, DCHECK, bind, Except.bind, pure,
              Except.pure] at h
            exact h.1
      · simp [Call.apply, BeginDelivery, hck, DCHECK, bind, Except.bind] at h
    rw [← hj]
    exact hinv
  | OnResponseInfoLoaded response_info response_id created =>
    by_cases hd : j.is_delivering_appcache_response = true
    · by_cases hri : response_info = NULL
      · simp [Call.apply, OnResponseInfoLoaded, hd, hri, DCHECK, bind, Except.bind, pure,
          Except.pure] at h
        obtain ⟨rfl, _⟩ := h
        intro hk
        exact ⟨(hinv hk).1, rfl⟩
      · by_cases hst : j.storage_ = NULL
        · simp [Call.apply, OnResponseInfoLoaded, hd, hri, hst, DCHECK, bind, Except.bind,
            pure, Except.pure] at h
        · simp [Call.apply, OnResponseInfoLoaded, hd, hri, hst, DCHECK, bind, Except.bind,
            pure, Except.pure] at h
          obtain ⟨rfl, _⟩ := h
          intro hk
          exact absurd (hinv hk).2 hst
    · simp [Call.apply, OnResponseInfoLoaded, hd, DCHECK, bind, Except.bind] at h
  | OnReadComplete result =>
    have hj : { j with reader_ := j.reader_.map (fun _ => { is_read_pending := false }) }
        = j1 := by
      by_cases hd : j.is_delivering_appcache_response = true
      · have hd1 : is_delivering_appcache_response
            { j with reader_ := j.reader_.map (fun _ => { is_read_pending := false }) }
            = true := hd
        by_cases h0 : result = 0
        · simp [Call.apply, OnReadComplete, hd1, h0, DCHECK, bind, Except.bind, pure,
            Except.pure] at h
          exact h.1
        · by_cases hneg : result < 0
          · simp [Call.apply, OnReadComplete, hd1, h0, hneg, DCHECK, bind, Except.bind, pure,
              Except.pure] at h
            exact h.1
          · simp [Call.apply, OnReadComplete, hd1, h0, hneg, DCHECK, bind, Except.bind, pure,
              Except.pure] at h
            exact h.1
      · have hd1 : ¬ is_delivering_appcache_response
            { j with reader_ := j.reader_.map (fun _ => { is_read_pending := false }) }
            = true := hd
        simp [Call.apply, OnReadComplete, hd1, DCHECK, bind, Except.bind] at h
    rw [← hj]
    intro hk
    obtain ⟨hr, hst⟩ := hinv hk
    exact ⟨by simp [hr], hst⟩
  | ReadRawData buf buf_size bytes_read =>
    intro hk
    cases hr : j.reader_ with
    | none =>
      simp only [Call.apply] at h
      cases hrr : j.ReadRawData buf buf_size bytes_read with
      | error e =>
        rw [hrr] at h
        cases h
      | ok r =>
        exfalso
        by_cases hd : j.is_delivering_appcache_response = true <;>
          by_cases hb : buf_size = 0 <;> by_cases hbr : bytes_read = NULL <;>
          simp [ReadRawData, hr, hd, hb, hbr, DCHECK, bind, Except.bind] at hrr
    | some r =>
      have hk0 : j.has_been_killed_ = true := by
        simp only [Call.apply] at h
        cases hrr : j.ReadRawData buf buf_size bytes_read with
        | error e =>
          rw [hrr] at h
          cases h
        | ok res =>
          rw [hrr] at h
          have hres : res.2 = (j1, effects) := Except.ok.inj h
          by_cases hd : j.is_delivering_appcache_response = true <;>
            by_cases hb : buf_size = 0 <;> by_cases hbr : bytes_read = NULL <;>
            by_cases hp : r.is_read_pending = true <;>
            simp [ReadRawData, hr, hd, hb, hbr, hp, DCHECK, bind, Except.bind, pure,
              Except.pure] at hrr
          rw [← hrr] at hres
          cases (Prod.mk.inj hres).1
          exact hk
      rw [(hinv hk0).1] at hr
      cases hr
  | Kill =>
    simp only [Call.apply] at h
    have hj : j1 = j.Kill.1 := ((Prod.mk.inj (Except.ok.inj h)).1).symm
    rw [hj]
    intro _
    by_cases hk : j.has_been_killed_ = true
    · simp only [Kill, hk, Bool.not_true, Bool.false_eq_true, if_false]
      exact hinv hk
    · by_cases hst : j.storage_ = NULL
      · simp [Kill, hk, hst]
      · simp [Kill, hk, hst]
  | GetLoadState =>
    cases (Prod.mk.inj (Except.ok.inj h)).1
    exact hinv

/-- No run of calls lets a killed job hold a reader or a storage reference. -/
theorem runCalls_killed_invariant (ERR_FAILED : Int) (cs : List Call)
    (j j1 : AppCacheURLRequestJob) (effects : List Effect)
    (h : runCalls ERR_FAILED cs j = Except.ok (j1, effects))
    (hinv : j.has_been_killed_ = true → j.reader_ = none ∧ j.storage_ = NULL) :
    j1.has_been_killed_ = true → j1.reader_ = none ∧ j1.storage_ = NULL := by
  induction cs generalizing j effects with
  | nil =>
    cases (Prod.mk.inj (Except.ok.inj h)).1
    exact hinv
  | cons c cs ih =>
    rw [runCalls_cons] at h
    cases hc : c.apply ERR_FAILED j with
    | error e =>
      rw [hc] at h
      cases h
    | ok r1 =>
      rw [hc] at h
      cases hr : runCalls ERR_FAILED cs r1.1 with
      | error e =>
        simp only [hr] at h
        cases h
      | ok r2 =>
        simp only [hr] at h
        have hj : r2.1 = j1 := (Prod.mk.inj (Except.ok.inj h)).1
        have hstep := call_keeps_killed_invariant ERR_FAILED c j r1.1 r1.2 hc hinv
        have hrest := ih r1.1 r2.2 (by rw [hr, ← hj]) hstep
        exact hrest

/-- C19. `Kill` is idempotent: in every state a job can reach from a state in
which it is not killed, by any sequence of calls, after one `Kill()` the job is
marked killed and has no reader and no storage reference; a second `Kill()`
changes no state and makes no call at all (no `CancelDelegateCallbacks`, no
base-class `Kill`); and a `Kill()` calls `CancelDelegateCallbacks` at most once,
exactly when the job was not killed and still held the storage reference. -/
theorem Kill_idempotent (ERR_FAILED : Int) (j0 : AppCacheURLRequestJob) (calls : List Call)
    (j : AppCacheURLRequestJob) (effects : List Effect)
    (h0 : j0.has_been_killed = false)
    (hrun : runCalls ERR_FAILED calls j0 = Except.ok (j, effects)) :
    j.Kill.1.has_been_killed = true
    ∧ j.Kill.1.reader_ = none
    ∧ j.Kill.1.storage_ = NULL
    ∧ j.Kill.1.Kill = (j.Kill.1, [])
    ∧ countCancel j.Kill.2 ≤ 1
    ∧ (countCancel j.Kill.2 = 1 ↔ j.has_been_killed = false ∧ j.storage_ ≠ NULL) := by
  have hinv := runCalls_killed_invariant ERR_FAILED calls j0 j effects hrun
    (fun hk => by simp only [has_been_killed] at h0; rw [h0] at hk; cases hk)
  by_cases hk : j.has_been_killed_ = true
  · obtain ⟨hr, hst⟩ := hinv hk
    have hkill : j.Kill = (j, []) := by simp [Kill, hk]
    rw [hkill]
    refine ⟨hk, hr, hst, hkill, by simp [countCancel], ?_⟩
    simp [countCancel, has_been_killed, hk]
  · have hkf : j.has_been_killed_ = false := by simpa using hk
    by_cases hst : j.storage_ = NULL
    · have hkill : j.Kill
          = ({ j with has_been_killed_ := true, reader_ := none },
              [Effect.URLRequestJob_Kill]) := by
        simp [Kill, hkf, hst]
      rw [hkill]
      refine ⟨rfl, rfl, hst, by simp [Kill], by simp [countCancel], ?_⟩
      simp [countCancel, hst]
    · have hkill : j.Kill
          = ({ j with has_been_killed_ := true, reader_ := none, storage_ := NULL },
              [Effect.CancelDelegateCallbacks j.storage_, Effect.URLRequestJob_Kill]) := by
        simp [Kill, hkf, hst]
      rw [hkill]
      refine ⟨rfl, rfl, rfl, by simp [Kill], by simp [countCancel], ?_⟩
      simp [countCancel, has_been_killed, hkf, hst]

/-- Witness of C19: the sample job is started and killed while it still holds
its storage 64; that `Kill()` cancels the delegate callbacks once, and a
further `Kill()` on the killed job changes nothing and calls nothing. -/
theorem Kill_idempotent_witness :
    sampleJob.has_been_killed = false
    ∧ runCalls (-2) [Call.Start, Call.Kill] sampleJob
        = Except.ok ({ sampleJob with
            has_been_started_ := true, has_been_killed_ := true, storage_ := NULL },
          [Effect.CancelDelegateCallbacks 64, Effect.URLRequestJob_Kill])
    ∧ Kill (Kill { sampleJob with
            has_been_started_ := true, has_been_killed_ := true, storage_ := NULL }).1
        = ((Kill { sampleJob with
            has_been_started_ := true, has_been_killed_ := true, storage_ := NULL }).1, [])
    ∧ (Kill { sampleJob with
            has_been_started_ := true, has_been_killed_ := true, storage_ := NULL }).1.storage_
        = NULL :=
  ⟨rfl, rfl,
   (Kill_idempotent (-2) sampleJob [Call.Start, Call.Kill] _ _ rfl rfl).2.2.2.1,
   (Kill_idempotent (-2) sampleJob [Call.Start, Call.Kill] _ _ rfl rfl).2.2.1⟩

end appcache
